import Mathlib

/-!
# BL0940 energy-metering driver: shallow embedding

Embedding of `bl0940.c` / `bl0940.h`.

* Machine integers are `Nat` with explicit reduction (`% 256`, `% 65536`,
  `% 2 ^ 32`) wherever the C type truncates.
* The two `extern` transport functions (`bl0940_uart_send`,
  `bl0940_uart_receive`) and `cos` from `<math.h>` are not part of the module;
  they are the fields of `Host`, a deterministic state machine over an
  arbitrary device state `τ`.
* `float` fields are read in exact rational arithmetic (`ℚ`).
* Buffers are lists of bytes; a byte is read with `rd`, which reduces modulo
  256 as a `uint8_t` cell does.
* `World.sent` is a ghost log of the frames handed to `bl0940_uart_send`,
  oldest first.
-/

namespace Bl0940

/-! ## Constants (`bl0940.c`, lines 7-44) -/

def PI : ℚ := 314159265358979 / 100000000000000

def BL0940_Head_Read : Nat := 0x58
def BL0940_Head_Write : Nat := 0xA8

def BL0940_Reg_Addr_Write_Protect : Nat := 0x1A
def BL0940_Unlock_User_Reg : Nat := 0x55

def BL0940_Reg_Addr_Mode_Settings : Nat := 0x18
def BL0940_Reg_Mode_Pos_I_Filter : Nat := 0
def BL0940_Reg_Mode_Pos_V_Filter : Nat := 4
def BL0940_Reg_Mode_Pos_Av_Time : Nat := 8
def BL0940_Reg_Mode_Pos_AC_Freq : Nat := 9

def BL0940_Get_Readings : Nat := 0xAA
def BL0940_Head_Readings : Nat := 0x55
def BL0940_Len_Readings : Nat := 35

def BL0940_Readings_Pos_I_Fast : Nat := 1
def BL0940_Readings_Pos_I : Nat := 4
def BL0940_Readings_Pos_V : Nat := 10
def BL0940_Readings_Pos_W : Nat := 16
def BL0940_Readings_Pos_Pulses : Nat := 22
def BL0940_Readings_Pos_Temp_Internal : Nat := 28
def BL0940_Readings_Pos_Temp_External : Nat := 31

def BL0940_Vref : ℚ := 1218 / 1000

def BL0940_Coefficient_V : ℚ := BL0940_Vref / 79931 / 1000
def BL0940_Coefficient_I : ℚ := BL0940_Vref / 324004 / 1000
def BL0940_Coefficient_W : ℚ := BL0940_Vref * BL0940_Vref / 4046 / 1000 / 1000
def BL0940_Coefficient_kWh : ℚ := BL0940_Coefficient_W * (16384 / 10) * 256 / 3600000

def BL0940_Reg_Addr_Angle : Nat := 0x0C
def BL0940_Freq_Sample : ℚ := 1000000

def BL0940_Timeout_ms : Nat := 500

def UINT32_MAX : Nat := 0xFFFFFFFF

/-! ## Types (`bl0940.h`) -/

def BL0940_Filter_AC_Pass : Nat := 0
def BL0940_Filter_DC_Pass : Nat := 2
def BL0940_Filter_All : Nat := 3

def BL0940_Av_Time_400ms : Nat := 0
def BL0940_Av_Time_800ms : Nat := 1

def BL0940_AC_Freq_50Hz : Nat := 0
def BL0940_AC_Freq_60Hz : Nat := 1

/-- The enum `BL0940_Error`; `None` is the zero value tested by `if (bl0940->error)`. -/
inductive BL0940_Error where
  | None
  | Read_Len
  | Read_Crc
  | Write
  | Write_Reg
  deriving DecidableEq, Repr

/-- The struct `BL0940`.  The three setting fields hold the enum's integer value. -/
structure BL0940 where
  uart_port_num : Nat
  voltage_divider : ℚ
  r_shunt_ohm : ℚ
  setting_filter : Nat
  setting_av_time : Nat
  setting_ac_freq : Nat
  error : BL0940_Error
  voltage : ℚ
  current : ℚ
  phase_angle : ℚ
  power_factor : ℚ
  power : ℚ
  energy : ℚ
  temp_internal : ℚ

/-- What `bl0940_uart_receive` delivers: the returned count and the contents of
the caller's buffer after the call. -/
structure Rx where
  cnt : Nat
  data : List Nat

/-- The functions this module imports: the two transport externs of `bl0940.h`
and `cos` of `<math.h>`.  The transport is a state machine on `τ`. -/
structure Host (τ : Type) where
  send : τ → Nat → List Nat → Bool × τ
  receive : τ → Nat → Nat → Nat → Rx × τ
  cos : ℚ → ℚ

/-- Device state together with the ghost log of frames handed to the transport. -/
structure World (τ : Type) where
  dev : τ
  sent : List (List Nat)

variable {τ : Type}

/-- The extern `bl0940_uart_send`, recording the frame in the ghost log. -/
def bl0940_uart_send (h : Host τ) (w : World τ) (port_num : Nat) (data : List Nat) :
    Bool × World τ :=
  let r := h.send w.dev port_num data
  (r.1, { dev := r.2, sent := w.sent ++ [data] })

/-- The extern `bl0940_uart_receive`. -/
def bl0940_uart_receive (h : Host τ) (w : World τ) (port_num cnt timeout_ms : Nat) :
    Rx × World τ :=
  let r := h.receive w.dev port_num cnt timeout_ms
  (r.1, { w with dev := r.2 })

/-- Read cell `i` of a `uint8_t` buffer. -/
def rd (data : List Nat) (i : Nat) : Nat := data.getD i 0 % 256

/-! ## Helpers (`bl0940.c`, lines 170-219) -/

/-- `bytes_sum`: a `uint16_t` accumulator over the first `cnt` cells. -/
def bytes_sum (data : List Nat) (cnt : Nat) : Nat :=
  if cnt = 0 then 0
  else (List.range cnt).foldl (fun sum i => (sum + rd data i) % 65536) 0

/-- `get_sum_byte`: `~(uint8_t)(sum & 0xFF)` converted to `uint8_t`. -/
def get_sum_byte (sum : Nat) : Nat := 255 - (sum &&& 0xFF) % 256

/-- `get_triple_bytes` on the three cells starting at `data`. -/
def get_triple_bytes (data : List Nat) : Nat :=
  ((rd data 2 <<< 16) % 2 ^ 32) ||| ((rd data 1 <<< 8) % 2 ^ 32) ||| rd data 0

/-- `set_triple_bytes`: the three cells written at `data`. -/
def set_triple_bytes (val : Nat) : List Nat :=
  [(val &&& 0xFF) % 256, ((val >>> 8) &&& 0xFF) % 256, ((val >>> 16) &&& 0xFF) % 256]

/-- `set_bits` on the register `*p_reg`; returns the new register value.
`pos + size` is computed in `int`, so it does not wrap. -/
def set_bits (reg val pos size : Nat) : Nat :=
  if pos ≥ 32 then reg
  else
    let size := if pos + size > 32 then 32 - pos else size
    let mask := 0
    let mask := if pos + size < 32 then (UINT32_MAX <<< (pos + size)) % 2 ^ 32 else mask
    let mask := if pos > 0 then mask ||| (UINT32_MAX >>> (32 - pos)) else mask
    let reg := reg &&& mask
    reg ||| (((val <<< pos) % 2 ^ 32) &&& (UINT32_MAX - mask))

/-! ## Register access (`bl0940.c`, lines 118-168) -/

/-- `read_register`: returns the value, the session and the world. -/
def read_register (h : Host τ) (s : BL0940) (w : World τ) (reg_addr : Nat) :
    Nat × BL0940 × World τ :=
  let tx_data := [BL0940_Head_Read, reg_addr]
  let r := bl0940_uart_send h w s.uart_port_num tx_data
  if !r.1 then (0, { s with error := .Write }, r.2)
  else
    let q := bl0940_uart_receive h r.2 s.uart_port_num 4 BL0940_Timeout_ms
    let rx_data := q.1.data
    let cnt_rx := q.1.cnt % 256
    if cnt_rx < 4 then (0, { s with error := .Read_Len }, q.2)
    else
      let sum := 0
      let sum := (sum + bytes_sum tx_data 2) % 65536
      let sum := (sum + bytes_sum rx_data (4 - 1)) % 65536
      if rd rx_data (4 - 1) ≠ get_sum_byte sum then (0, { s with error := .Read_Crc }, q.2)
      else (get_triple_bytes rx_data, s, q.2)

/-- The 6-byte frame `tx_data` built by `write_register`. -/
def write_frame (reg_addr val : Nat) : List Nat :=
  let tx_data := [BL0940_Head_Write, reg_addr] ++ set_triple_bytes val ++ [0]
  tx_data.set 5 (get_sum_byte (bytes_sum tx_data (6 - 1)))

/-- `write_register`: recursive exactly as in the source (the nested calls
target the write-protect register). -/
def write_register (h : Host τ) (s : BL0940) (w : World τ) (reg_addr val : Nat) :
    Bool × BL0940 × World τ :=
  let p :=
    if _hne : reg_addr ≠ BL0940_Reg_Addr_Write_Protect then
      let u := write_register h s w BL0940_Reg_Addr_Write_Protect BL0940_Unlock_User_Reg
      (u.2.1, u.2.2)
    else (s, w)
  let s := p.1
  let w := p.2
  let r := bl0940_uart_send h w s.uart_port_num (write_frame reg_addr val)
  if !r.1 then (false, { s with error := .Write }, r.2)
  else if _heq : reg_addr = BL0940_Reg_Addr_Write_Protect then (true, s, r.2)
  else
    let q := read_register h s r.2 reg_addr
    if q.1 ≠ val then (false, { q.2.1 with error := .Write_Reg }, q.2.2)
    else
      let l := write_register h q.2.1 q.2.2 BL0940_Reg_Addr_Write_Protect 0x00
      (true, l.2.1, l.2.2)
termination_by (if reg_addr = BL0940_Reg_Addr_Write_Protect then 0 else 1)
decreasing_by
  all_goals simp_wf
  all_goals simp_all

/-! ## Public operations (`bl0940.c`, lines 54-116) -/

/-- The four `set_bits` calls of `bl0940_apply_settings` (lines 61-64) applied to
the mode register just read; the enum values are converted to `uint32_t`. -/
def apply_settings_reg_mode (s : BL0940) (reg_mode : Nat) : Nat :=
  let reg_mode := set_bits reg_mode (s.setting_filter % 2 ^ 32) BL0940_Reg_Mode_Pos_I_Filter 2
  let reg_mode := set_bits reg_mode (s.setting_filter % 2 ^ 32) BL0940_Reg_Mode_Pos_V_Filter 2
  let reg_mode := set_bits reg_mode (s.setting_av_time % 2 ^ 32) BL0940_Reg_Mode_Pos_Av_Time 1
  set_bits reg_mode (s.setting_ac_freq % 2 ^ 32) BL0940_Reg_Mode_Pos_AC_Freq 1

/-- `bl0940_apply_settings`. -/
def bl0940_apply_settings (h : Host τ) (s : BL0940) (w : World τ) : Bool × BL0940 × World τ :=
  let s := { s with error := .None }
  let q := read_register h s w BL0940_Reg_Addr_Mode_Settings
  if q.2.1.error ≠ .None then (false, q.2.1, q.2.2)
  else
    let reg_mode := apply_settings_reg_mode q.2.1 q.1
    write_register h q.2.1 q.2.2 BL0940_Reg_Addr_Mode_Settings reg_mode

/-- `bl0940_get_readings`. -/
def bl0940_get_readings (h : Host τ) (s : BL0940) (w : World τ) : Bool × BL0940 × World τ :=
  let s := { s with error := .None }
  let tx_data := [BL0940_Head_Read, BL0940_Get_Readings]
  let r := bl0940_uart_send h w s.uart_port_num tx_data
  if !r.1 then (false, { s with error := .Write }, r.2)
  else
    let q := bl0940_uart_receive h r.2 s.uart_port_num BL0940_Len_Readings BL0940_Timeout_ms
    let rx_data := q.1.data
    let cnt_rx := q.1.cnt % 256
    if cnt_rx < BL0940_Len_Readings then (false, { s with error := .Read_Len }, q.2)
    else
      let sum := BL0940_Head_Read
      let sum := (sum + bytes_sum rx_data (BL0940_Len_Readings - 1)) % 65536
      if rd rx_data (BL0940_Len_Readings - 1) ≠ get_sum_byte sum then
        (false, { s with error := .Read_Crc }, q.2)
      else
        let s := { s with voltage :=
          (get_triple_bytes (rx_data.drop BL0940_Readings_Pos_V) : ℚ)
            * BL0940_Coefficient_V * s.voltage_divider }
        let s := { s with current :=
          (get_triple_bytes (rx_data.drop BL0940_Readings_Pos_I) : ℚ)
            * BL0940_Coefficient_I / s.r_shunt_ohm }
        let s := { s with power :=
          (get_triple_bytes (rx_data.drop BL0940_Readings_Pos_W) : ℚ)
            * BL0940_Coefficient_W * s.voltage_divider / s.r_shunt_ohm }
        let s := { s with energy :=
          (get_triple_bytes (rx_data.drop BL0940_Readings_Pos_Pulses) : ℚ)
            * BL0940_Coefficient_kWh * s.voltage_divider / s.r_shunt_ohm }
        let s := { s with temp_internal :=
          (get_triple_bytes (rx_data.drop BL0940_Readings_Pos_Temp_Internal) : ℚ) }
        let s := { s with temp_internal := (170 / 448) * (s.temp_internal / 2 - 32) - 45 }
        let a := read_register h s q.2 BL0940_Reg_Addr_Angle
        let data_angle : ℚ := ((a.1 &&& 0xFFFF : Nat) : ℚ)
        let s := a.2.1
        if s.error ≠ .None then (false, s, a.2.2)
        else
          let data_angle := data_angle *
            (if s.setting_ac_freq = BL0940_AC_Freq_50Hz then 50 else 60)
          let data_angle := data_angle / BL0940_Freq_Sample
          let s := { s with phase_angle := 360 * data_angle }
          let s := { s with power_factor := h.cos (2 * PI * data_angle) }
          (true, s, a.2.2)

/-! ## Vocabulary for stating properties -/

/-- Checksum as the specification words it: the one's complement of the low byte
of the sum of the frame bytes. -/
def spec_checksum (bytes : List Nat) : Nat := 0xFF - bytes.sum % 256

/-- The mask of `set_bits` as a function of `pos` and the clamped `size`. -/
def set_bits_mask (pos size : Nat) : Nat :=
  if 0 < pos then
    (if pos + size < 32 then (UINT32_MAX <<< (pos + size)) % 2 ^ 32 else 0) |||
      (UINT32_MAX >>> (32 - pos))
  else (if pos + size < 32 then (UINT32_MAX <<< (pos + size)) % 2 ^ 32 else 0)

/-- The seven measurement fields of the session. -/
def snapshot (s : BL0940) : ℚ × ℚ × ℚ × ℚ × ℚ × ℚ × ℚ :=
  (s.voltage, s.current, s.power, s.energy, s.temp_internal, s.phase_angle, s.power_factor)

/-- Outcome of the send of the read command for register `a`. -/
def reg_cmd_send (h : Host τ) (s : BL0940) (w : World τ) (a : Nat) : Bool × World τ :=
  bl0940_uart_send h w s.uart_port_num [BL0940_Head_Read, a]

/-- Response received after the read command for register `a`. -/
def reg_resp (h : Host τ) (s : BL0940) (w : World τ) (a : Nat) : Rx × World τ :=
  bl0940_uart_receive h (reg_cmd_send h s w a).2 s.uart_port_num 4 BL0940_Timeout_ms

/-- Expected checksum byte of a register response, in the specification's words:
command bytes plus the three payload bytes. -/
def reg_resp_crc (a : Nat) (data : List Nat) : Nat :=
  spec_checksum [0x58, a, rd data 0, rd data 1, rd data 2]

/-- Outcome of the send of the bulk-read command. -/
def bulk_cmd_send (h : Host τ) (s : BL0940) (w : World τ) : Bool × World τ :=
  bl0940_uart_send h w s.uart_port_num [BL0940_Head_Read, BL0940_Get_Readings]

/-- Response received after the bulk-read command. -/
def bulk_resp (h : Host τ) (s : BL0940) (w : World τ) : Rx × World τ :=
  bl0940_uart_receive h (bulk_cmd_send h s w).2 s.uart_port_num BL0940_Len_Readings
    BL0940_Timeout_ms

/-- Expected checksum byte of a bulk response, in the specification's words:
the command header plus the first 34 received bytes. -/
def bulk_crc (data : List Nat) : Nat :=
  spec_checksum (0x58 :: (List.range 34).map (rd data))



/-- The session after lines 92-105 of `bl0940_get_readings`: error cleared and
the five bulk-derived fields overwritten from the received frame `data`. -/
def bulk_decoded (s : BL0940) (data : List Nat) : BL0940 :=
  { s with
    error := .None
    voltage := (get_triple_bytes (data.drop BL0940_Readings_Pos_V) : ℚ)
      * BL0940_Coefficient_V * s.voltage_divider
    current := (get_triple_bytes (data.drop BL0940_Readings_Pos_I) : ℚ)
      * BL0940_Coefficient_I / s.r_shunt_ohm
    power := (get_triple_bytes (data.drop BL0940_Readings_Pos_W) : ℚ)
      * BL0940_Coefficient_W * s.voltage_divider / s.r_shunt_ohm
    energy := (get_triple_bytes (data.drop BL0940_Readings_Pos_Pulses) : ℚ)
      * BL0940_Coefficient_kWh * s.voltage_divider / s.r_shunt_ohm
    temp_internal := (170 / 448)
      * ((get_triple_bytes (data.drop BL0940_Readings_Pos_Temp_Internal) : ℚ) / 2 - 32) - 45 }

/-- The `float data_angle` of `bl0940_get_readings` after line 111, from the
angle register value `g`. -/
def angle_fraction (s : BL0940) (g : Nat) : ℚ :=
  ((g &&& 0xFFFF : Nat) : ℚ) * (if s.setting_ac_freq = BL0940_AC_Freq_50Hz then 50 else 60)
    / BL0940_Freq_Sample

/-- Outcome of the send of the phase-angle read command inside `bl0940_get_readings`. -/
def angle_cmd_send (h : Host τ) (s : BL0940) (w : World τ) : Bool × World τ :=
  reg_cmd_send h s (bulk_resp h s w).2 BL0940_Reg_Addr_Angle

/-- Response to the phase-angle read command inside `bl0940_get_readings`. -/
def angle_resp (h : Host τ) (s : BL0940) (w : World τ) : Rx × World τ :=
  reg_resp h s (bulk_resp h s w).2 BL0940_Reg_Addr_Angle

/-! ## Test fixtures -/

/-- A scripted transport: every send pops its result from the first list
(success once the list is exhausted) and every receive pops its response from
the second list (nothing received once exhausted). -/
def scriptHost : Host (List Bool × List Rx) where
  send := fun d _ _ => (d.1.headD true, (d.1.tail, d.2))
  receive := fun d _ _ _ => (d.2.headD ⟨0, []⟩, (d.1, d.2.tail))
  cos := fun _ => 0

/-- A transport with a fixed behaviour: every send returns `ok`, every receive
delivers `rx`. -/
def constHost (ok : Bool) (rx : Rx) : Host Unit where
  send := fun _ _ _ => (ok, ())
  receive := fun _ _ _ _ => (rx, ())
  cos := fun _ => 0

/-- A session with a previous snapshot in place. -/
def session0 : BL0940 :=
  { uart_port_num := 1, voltage_divider := 1000, r_shunt_ohm := 1 / 1000,
    setting_filter := BL0940_Filter_AC_Pass, setting_av_time := BL0940_Av_Time_400ms,
    setting_ac_freq := BL0940_AC_Freq_50Hz, error := .Write_Reg,
    voltage := 230, current := 2, phase_angle := 10, power_factor := 1 / 2,
    power := 460, energy := 5, temp_internal := 25 }

/-- A well-formed 35-byte bulk frame whose voltage field is `0x013880`. -/
def bulk_fixture : List Nat :=
  [0x55, 0, 0, 0, 0, 0, 0, 0, 0, 0, 0x80, 0x38, 0x01, 0, 0, 0, 0, 0, 0, 0, 0, 0,
   0, 0, 0, 0, 0, 0, 0, 0, 0, 0, 0, 0, 0x99]

/-- A well-formed response to a read of the phase-angle register, value `1`. -/
def angle_fixture : List Nat := [1, 0, 0, 0x9A]

/-- World for `scriptHost`: all sends succeed, a good bulk frame arrives, then the
phase-angle response is one byte short. -/
def world_angle_short : World (List Bool × List Rx) :=
  ⟨([], [⟨35, bulk_fixture⟩, ⟨3, [1, 0, 0]⟩]), []⟩

/-- World for `scriptHost`: all sends succeed, the bulk response is one byte short. -/
def world_bulk_short : World (List Bool × List Rx) :=
  ⟨([], [⟨34, bulk_fixture⟩]), []⟩



/-- A 35-byte frame that is at once a well-formed bulk frame and, in its first
four bytes, a well-formed response to a read of register `0x0C`. -/
def dual_fixture : List Nat :=
  [1, 0, 0, 0x9A, 0, 0, 0, 0, 0, 0, 0, 0, 0, 0, 0, 0, 0, 0, 0, 0, 0, 0,
   0, 0, 0, 0, 0, 0, 0, 0, 0, 0, 0, 0, 0x0C]

/-- The frame `dual_fixture` with both checksum positions (3 and 34) altered. -/
def dual_tampered : List Nat :=
  [1, 0, 0, 0x9B, 0, 0, 0, 0, 0, 0, 0, 0, 0, 0, 0, 0, 0, 0, 0, 0, 0, 0,
   0, 0, 0, 0, 0, 0, 0, 0, 0, 0, 0, 0, 0x0D]

/-- World for `scriptHost`: all sends succeed, the first response is `dual_fixture`,
the second a good phase-angle response. -/
def world_dual : World (List Bool × List Rx) :=
  ⟨([], [⟨35, dual_fixture⟩, ⟨4, angle_fixture⟩]), []⟩

/-- World for `scriptHost`: all sends succeed, the first response is `dual_tampered`. -/
def world_tampered : World (List Bool × List Rx) :=
  ⟨([], [⟨35, dual_tampered⟩, ⟨4, angle_fixture⟩]), []⟩



/-- A well-formed response to a read of the mode register `0x18`, value `1`. -/
def mode_echo_fixture : Rx := ⟨4, [1, 0, 0, 0x8E]⟩

/-- A well-formed response to a read of the mode register `0x18`, value `0`. -/
def mode_zero_fixture : Rx := ⟨4, [0, 0, 0, 0x8F]⟩

/-- World for `scriptHost`: the send of the initial read command succeeds, the
unlock send fails, every later send succeeds; both reads of the mode register
deliver the value `0`. -/
def world_unlock_fails : World (List Bool × List Rx) :=
  ⟨([true, false], [mode_zero_fixture, mode_zero_fixture]), []⟩



/-- A well-formed response to a read of the mode register `0x18`, value `0xFFFFFF`. -/
def mode_ones_fixture : Rx := ⟨4, [0xFF, 0xFF, 0xFF, 0x92]⟩

/-- A session configured for DC-pass filtering, 400 ms averaging and 60 Hz. -/
def session1 : BL0940 :=
  { session0 with
    setting_filter := BL0940_Filter_DC_Pass
    setting_av_time := BL0940_Av_Time_400ms
    setting_ac_freq := BL0940_AC_Freq_60Hz }

/-! ## Further definitions and fixtures -/

/-- The function `write_register` with an explicit bound on the call depth: every
call (the outer one and each nested one) consumes one unit of `fuel`, and the
result is `none` when a call is attempted with no fuel left. -/
def write_register_fuel (fuel : Nat) (h : Host τ) (s : BL0940) (w : World τ)
    (reg_addr val : Nat) : Option (Bool × BL0940 × World τ) :=
  match fuel with
  | 0 => none
  | fuel + 1 =>
    let p : Option (BL0940 × World τ) :=
      if reg_addr ≠ BL0940_Reg_Addr_Write_Protect then
        (write_register_fuel fuel h s w BL0940_Reg_Addr_Write_Protect
          BL0940_Unlock_User_Reg).map (fun u => (u.2.1, u.2.2))
      else some (s, w)
    p.bind fun p =>
      let s := p.1
      let w := p.2
      let r := bl0940_uart_send h w s.uart_port_num (write_frame reg_addr val)
      if !r.1 then some (false, { s with error := .Write }, r.2)
      else if reg_addr = BL0940_Reg_Addr_Write_Protect then some (true, s, r.2)
      else
        let q := read_register h s r.2 reg_addr
        if q.1 ≠ val then some (false, { q.2.1 with error := .Write_Reg }, q.2.2)
        else
          (write_register_fuel fuel h q.2.1 q.2.2 BL0940_Reg_Addr_Write_Protect 0x00).map
            (fun l => (true, l.2.1, l.2.2))

/-- World for `scriptHost`: all sends succeed, a good bulk frame and a good
phase-angle response arrive. -/
def world_good : World (List Bool × List Rx) :=
  ⟨([], [⟨35, bulk_fixture⟩, ⟨4, angle_fixture⟩]), []⟩

/-- World for `scriptHost`: all sends succeed, the initial read of the mode
register delivers `0`, the read-back after the write is one byte short. -/
def world_readback_short : World (List Bool × List Rx) :=
  ⟨([], [mode_zero_fixture, ⟨3, [0x22, 0x02, 0]⟩]), []⟩

/-- World for `scriptHost`: as `world_dual`, with byte 1 of the first response
replaced by `7`. -/
def world_dual_byte1 : World (List Bool × List Rx) :=
  ⟨([], [⟨35, dual_fixture.set 1 7⟩, ⟨4, angle_fixture⟩]), []⟩

/-- World for `scriptHost`: the unlock send succeeds, the data send fails. -/
def world_data_send_fails : World (List Bool × List Rx) :=
  ⟨([true, false], [mode_echo_fixture]), []⟩

/-- World for `scriptHost`: the unlock send fails, every later send succeeds, the
read-back echoes the value `1`. -/
def world_unlock_send_fails : World (List Bool × List Rx) :=
  ⟨([false, true, true, true], [mode_echo_fixture]), []⟩

/-- World for `scriptHost`: the relock send fails, every earlier send succeeds, the
read-back echoes the value `1`. -/
def world_relock_send_fails : World (List Bool × List Rx) :=
  ⟨([true, true, true, false], [mode_echo_fixture]), []⟩

/-- The specification's `LE24(k)`: the unsigned value
`rx[k] | rx[k+1]<<8 | rx[k+2]<<16` of the three cells starting at `k`. -/
def LE24 (rx : List Nat) (k : Nat) : Nat :=
  rd rx k ||| (rd rx (k + 1) <<< 8) ||| (rd rx (k + 2) <<< 16)

/-- A session whose three setting fields hold integers outside their enums. -/
def session_out_of_enum : BL0940 :=
  { session0 with
    setting_filter := 0xFFFFFFFF
    setting_av_time := 7
    setting_ac_freq := 0xFFFFFFFE }

/-- A register response for address `0x0C` whose checksum byte is wrong
(`0x9B` where `0x9A` is expected). -/
def angle_tampered : Rx := ⟨4, [1, 0, 0, 0x9B]⟩

/-- World for `scriptHost`: all sends succeed, the only response is the good 4-byte
phase-angle response. -/
def world_reg_good : World (List Bool × List Rx) :=
  ⟨([], [⟨4, angle_fixture⟩]), []⟩

/-- World for `scriptHost`: as `world_reg_good`, with byte 1 of the response
changed from `0` to `7`. -/
def world_reg_byte1 : World (List Bool × List Rx) :=
  ⟨([], [⟨4, [1, 7, 0, 0x9A]⟩]), []⟩

/-- World for `scriptHost`: as `world_good`, with byte 20 of the bulk frame
changed from `0` to `5`. -/
def world_bulk_byte20 : World (List Bool × List Rx) :=
  ⟨([], [⟨35, bulk_fixture.set 20 5⟩, ⟨4, angle_fixture⟩]), []⟩

/-! # Theorems -/


/-! ## Byte helpers -/

theorem rd_lt (data : List Nat) (i : Nat) : rd data i < 256 := by
  unfold rd; omega

theorem and_ff (x : Nat) : x &&& 0xFF = x % 256 :=
  Nat.and_pow_two_sub_one_eq_mod x 8

theorem get_sum_byte_eq (sum : Nat) : get_sum_byte sum = 255 - sum % 256 := by
  unfold get_sum_byte; rw [and_ff]; omega

theorem bytes_sum_eq (data : List Nat) (cnt : Nat) :
    bytes_sum data cnt = ((List.range cnt).map (rd data)).sum % 65536 := by
  unfold bytes_sum
  split
  · next h => subst h; rfl
  · clear * -
    induction cnt with
    | zero => rfl
    | succ n ih =>
      rw [List.range_succ, List.foldl_append, ih, List.map_append, List.sum_append]
      simp only [List.foldl_cons, List.foldl_nil, List.map_cons, List.map_nil, List.sum_cons,
        List.sum_nil]
      omega

theorem testBit_ge_of_lt {x n i : Nat} (hx : x < 2 ^ n) (hi : n ≤ i) : x.testBit i = false :=
  Nat.testBit_lt_two_pow (lt_of_lt_of_le hx (Nat.pow_le_pow_right (by decide) hi))

theorem get_triple_bytes_testBit (data : List Nat) (i : Nat) :
    (get_triple_bytes data).testBit i =
      if i < 8 then (rd data 0).testBit i
      else if i < 16 then (rd data 1).testBit (i - 8)
      else if i < 24 then (rd data 2).testBit (i - 16)
      else false := by
  have h0 := rd_lt data 0
  have h1 := rd_lt data 1
  have h2 := rd_lt data 2
  unfold get_triple_bytes
  simp only [Nat.testBit_or, Nat.testBit_mod_two_pow, Nat.testBit_shiftLeft]
  by_cases c0 : i < 8
  · have a1 : ¬ 16 ≤ i := by omega
    have a2 : ¬ 8 ≤ i := by omega
    simp [c0, a1, a2]
  · have e0 : (rd data 0).testBit i = false := testBit_ge_of_lt (n := 8) h0 (by omega)
    have a2 : 8 ≤ i := by omega
    by_cases c1 : i < 16
    · have a1 : ¬ 16 ≤ i := by omega
      have a3 : i < 32 := by omega
      simp [c0, c1, e0, a1, a2, a3]
    · have e1 : (rd data 1).testBit (i - 8) = false := testBit_ge_of_lt (n := 8) h1 (by omega)
      have a1 : 16 ≤ i := by omega
      by_cases c2 : i < 24
      · have a3 : i < 32 := by omega
        simp [c0, c1, c2, e0, e1, a1, a3]
      · have e2 : (rd data 2).testBit (i - 16) = false :=
          testBit_ge_of_lt (n := 8) h2 (by omega)
        simp [c0, c1, c2, e0, e1, e2]

theorem get_triple_bytes_lt (data : List Nat) : get_triple_bytes data < 2 ^ 24 := by
  apply Nat.lt_pow_two_of_testBit
  intro i hi
  rw [get_triple_bytes_testBit]
  have : ¬ i < 8 := by omega
  have : ¬ i < 16 := by omega
  have : ¬ i < 24 := by omega
  simp [*]

/-! ## Little-endian 24-bit values -/

theorem mod256_testBit (x i : Nat) : (x % 256).testBit i = (decide (i < 8) && x.testBit i) :=
  Nat.testBit_mod_two_pow x 8 i

theorem rd_cons_zero (b : Nat) (l : List Nat) : rd (b :: l) 0 = b % 256 := rfl

theorem rd_cons_succ (b : Nat) (l : List Nat) (i : Nat) : rd (b :: l) (i + 1) = rd l i := rfl

theorem get_set_triple_bytes (v : Nat) (hv : v < 2 ^ 24) :
    get_triple_bytes (set_triple_bytes v) = v := by
  apply Nat.eq_of_testBit_eq
  intro i
  rw [get_triple_bytes_testBit]
  have r0 : rd (set_triple_bytes v) 0 = v % 256 := by
    simp [set_triple_bytes, rd, and_ff]
  have r1 : rd (set_triple_bytes v) 1 = (v >>> 8) % 256 := by
    simp [set_triple_bytes, rd, and_ff]
  have r2 : rd (set_triple_bytes v) 2 = (v >>> 16) % 256 := by
    simp [set_triple_bytes, rd, and_ff]
  rw [r0, r1, r2]
  simp only [mod256_testBit, Nat.testBit_shiftRight]
  by_cases c0 : i < 8
  · simp [c0]
  · by_cases c1 : i < 16
    · have a : i - 8 < 8 := by omega
      have b : 8 + (i - 8) = i := by omega
      simp [c0, c1, a, b]
    · by_cases c2 : i < 24
      · have a : i - 16 < 8 := by omega
        have b : 16 + (i - 16) = i := by omega
        simp [c0, c1, c2, a, b]
      · simp [c0, c1, c2, testBit_ge_of_lt hv (by omega : 24 ≤ i)]

theorem get_triple_bytes_bytes (b0 b1 b2 : Nat) (h0 : b0 < 256) (h1 : b1 < 256)
    (h2 : b2 < 256) :
    get_triple_bytes [b0, b1, b2] = b0 ||| (b1 <<< 8) ||| (b2 <<< 16) := by
  have e0 : rd [b0, b1, b2] 0 = b0 := by simp [rd]; omega
  have e1 : rd [b0, b1, b2] 1 = b1 := by simp [rd]; omega
  have e2 : rd [b0, b1, b2] 2 = b2 := by simp [rd]; omega
  have m1 : (b1 <<< 8) % 2 ^ 32 = b1 <<< 8 := by
    rw [Nat.shiftLeft_eq]; apply Nat.mod_eq_of_lt; omega
  have m2 : (b2 <<< 16) % 2 ^ 32 = b2 <<< 16 := by
    rw [Nat.shiftLeft_eq]; apply Nat.mod_eq_of_lt; omega
  unfold get_triple_bytes
  rw [e0, e1, e2, m1, m2]
  apply Nat.eq_of_testBit_eq
  intro i
  simp only [Nat.testBit_or]
  cases (b0.testBit i) <;> cases ((b1 <<< 8).testBit i) <;> cases ((b2 <<< 16).testBit i) <;> rfl

/-- C4. For every 24-bit value `v`, decoding the three bytes that
`set_triple_bytes` writes gives `v` back; the bytes written are `v & 0xFF`,
`(v >> 8) & 0xFF`, `(v >> 16) & 0xFF` in that order; and `get_triple_bytes` of
bytes `b0, b1, b2` is `b0 | b1<<8 | b2<<16`, which is below `2^24`. -/
theorem triple_bytes_roundtrip (v b0 b1 b2 : Nat) (hv : v < 2 ^ 24)
    (h0 : b0 < 256) (h1 : b1 < 256) (h2 : b2 < 256) :
    get_triple_bytes (set_triple_bytes v) = v ∧
    set_triple_bytes v = [v &&& 0xFF, (v >>> 8) &&& 0xFF, (v >>> 16) &&& 0xFF] ∧
    get_triple_bytes [b0, b1, b2] = b0 ||| (b1 <<< 8) ||| (b2 <<< 16) ∧
    get_triple_bytes [b0, b1, b2] < 2 ^ 24 := by
  refine ⟨get_set_triple_bytes v hv, ?_, get_triple_bytes_bytes b0 b1 b2 h0 h1 h2,
    get_triple_bytes_lt _⟩
  unfold set_triple_bytes
  have a (x : Nat) : (x &&& 0xFF) % 256 = x &&& 0xFF := by
    rw [and_ff]; omega
  rw [a, a, a]

theorem triple_bytes_roundtrip_witness :
    get_triple_bytes (set_triple_bytes 0x013880) = 0x013880 ∧
    set_triple_bytes 0x013880 =
      [0x013880 &&& 0xFF, (0x013880 >>> 8) &&& 0xFF, (0x013880 >>> 16) &&& 0xFF] ∧
    get_triple_bytes [0x80, 0x38, 0x01] = 0x80 ||| (0x38 <<< 8) ||| (0x01 <<< 16) ∧
    get_triple_bytes [0x80, 0x38, 0x01] < 2 ^ 24 :=
  triple_bytes_roundtrip 0x013880 0x80 0x38 0x01 (by decide) (by decide) (by decide)
    (by decide)

/-! ## Bit-field packing -/

theorem uint32_max_eq : UINT32_MAX = 2 ^ 32 - 1 := by decide

/-- The mask built by `set_bits` (for `pos < 32` and the clamped `size`). -/
theorem set_bits_mask_testBit (pos size i : Nat) (hp : pos < 32) (hs : pos + size ≤ 32) :
    ((if 0 < pos then
        (if pos + size < 32 then (UINT32_MAX <<< (pos + size)) % 2 ^ 32 else 0) |||
          (UINT32_MAX >>> (32 - pos))
      else (if pos + size < 32 then (UINT32_MAX <<< (pos + size)) % 2 ^ 32 else 0))).testBit i
      = (decide (i < 32) && (decide (i < pos) || decide (pos + size ≤ i))) := by
  rw [uint32_max_eq]
  by_cases c1 : 0 < pos <;> by_cases c2 : pos + size < 32 <;>
    simp only [c1, c2, if_true, if_false, Nat.testBit_or, Nat.testBit_mod_two_pow,
      Nat.testBit_shiftLeft, Nat.testBit_shiftRight, Nat.testBit_two_pow_sub_one,
      Nat.zero_testBit] <;>
    by_cases d1 : i < 32 <;> by_cases d2 : i < pos <;> by_cases d3 : pos + size ≤ i <;>
    simp [d1, d2, d3] <;> omega

theorem set_bits_unfold (reg val pos size : Nat) (hp : pos < 32) :
    set_bits reg val pos size =
      (reg &&& set_bits_mask pos (if pos + size > 32 then 32 - pos else size)) |||
        (((val <<< pos) % 2 ^ 32) &&&
          (UINT32_MAX - set_bits_mask pos (if pos + size > 32 then 32 - pos else size))) := by
  unfold set_bits set_bits_mask
  have : ¬ pos ≥ 32 := by omega
  simp only [this, if_false]

theorem set_bits_testBit (reg val pos size i : Nat) (hp : pos < 32) :
    (set_bits reg val pos size).testBit i =
      if i < 32 then
        (if pos ≤ i ∧ i < pos + size then val.testBit (i - pos) else reg.testBit i)
      else false := by
  rw [set_bits_unfold reg val pos size hp]
  generalize hsz : (if pos + size > 32 then 32 - pos else size) = sz
  have hs : pos + sz ≤ 32 := by subst hsz; split <;> omega
  have hm : ∀ j, (set_bits_mask pos sz).testBit j =
      (decide (j < 32) && (decide (j < pos) || decide (pos + sz ≤ j))) :=
    fun j => set_bits_mask_testBit pos sz j hp hs
  have hlt : set_bits_mask pos sz < 2 ^ 32 := by
    apply Nat.lt_pow_two_of_testBit
    intro j hj
    rw [hm]
    have : ¬ j < 32 := by omega
    simp [this]
  have hc : UINT32_MAX - set_bits_mask pos sz = 2 ^ 32 - (set_bits_mask pos sz + 1) := by
    rw [uint32_max_eq]; omega
  rw [hc]
  simp only [Nat.testBit_or, Nat.testBit_and, Nat.testBit_mod_two_pow, Nat.testBit_shiftLeft,
    Nat.testBit_two_pow_sub_succ hlt, hm]
  have hfield : (pos ≤ i ∧ i < pos + size) ∧ i < 32 ↔ pos ≤ i ∧ i < pos + sz := by
    subst hsz; split <;> omega
  by_cases d1 : i < 32
  · by_cases d2 : i < pos
    · have : ¬ (pos ≤ i ∧ i < pos + size) := by omega
      have d4 : ¬ i ≥ pos := by omega
      simp [d1, d2, this, d4]
    · by_cases d3 : pos + sz ≤ i
      · have : ¬ (pos ≤ i ∧ i < pos + size) := by
          intro hh; have := hfield.mp ⟨hh, d1⟩; omega
        simp [d1, d2, d3, this]
      · have hin : pos ≤ i ∧ i < pos + size := (hfield.mpr ⟨by omega, by omega⟩).1
        have d4 : i ≥ pos := by omega
        have d5 : pos ≤ i := by omega
        simp [d1, d2, d3, hin, d4, d5]
  · simp [d1]

theorem set_bits_lt (reg val pos size : Nat) (hr : reg < 2 ^ 32) :
    set_bits reg val pos size < 2 ^ 32 := by
  by_cases hp : pos < 32
  · apply Nat.lt_pow_two_of_testBit
    intro i hi
    rw [set_bits_testBit reg val pos size i hp]
    have : ¬ i < 32 := by omega
    simp [this]
  · unfold set_bits
    have : pos ≥ 32 := by omega
    simp only [this, if_true]
    exact hr

/-- C5. For a 32-bit register `r`, value `v`, offset `P < 32` and width
`W`, with `W' = min W (32 - P)`: `set_bits` keeps every bit outside
`[P, P + W')`, the field read back `(result >> P) & (2^W' - 1)` is
`v & (2^W' - 1)`, the result stays a 32-bit value (a width running past bit 31 is
clamped, nothing wraps into the low bits), and for an offset `Q ≥ 32` the
register is unchanged. -/
theorem set_bits_field (r v P W Q : Nat) (hr : r < 2 ^ 32) (hP : P < 32) (hQ : 32 ≤ Q) :
    (∀ i, i < 32 → (i < P ∨ P + min W (32 - P) ≤ i) →
        (set_bits r v P W).testBit i = r.testBit i) ∧
    ((set_bits r v P W) >>> P) &&& (2 ^ (min W (32 - P)) - 1)
        = v &&& (2 ^ (min W (32 - P)) - 1) ∧
    set_bits r v P W < 2 ^ 32 ∧
    set_bits r v Q W = r := by
  refine ⟨?_, ?_, set_bits_lt r v P W hr, ?_⟩
  · intro i hi hout
    rw [set_bits_testBit r v P W i hP]
    have : ¬ (P ≤ i ∧ i < P + W) := by
      intro hh
      rcases hout with h | h
      · omega
      · omega
    simp [hi, this]
  · apply Nat.eq_of_testBit_eq
    intro i
    simp only [Nat.testBit_and, Nat.testBit_shiftRight, Nat.testBit_two_pow_sub_one]
    by_cases c : i < min W (32 - P)
    · have c1 : P + i < 32 := by
        have := Nat.min_le_right W (32 - P); omega
      have c2 : P ≤ P + i ∧ P + i < P + W := by
        have := Nat.min_le_left W (32 - P); omega
      rw [set_bits_testBit r v P W (P + i) hP]
      simp [c, c1, c2]
    · simp [c]
  · unfold set_bits
    have : Q ≥ 32 := hQ
    simp only [this, if_true]

theorem set_bits_field_witness :
    (∀ i, i < 32 → (i < 30 ∨ 30 + min 200 (32 - 30) ≤ i) →
        (set_bits 0x12345678 0xFFFFFFFF 30 200).testBit i = (0x12345678 : Nat).testBit i) ∧
    ((set_bits 0x12345678 0xFFFFFFFF 30 200) >>> 30) &&& (2 ^ (min 200 (32 - 30)) - 1)
        = 0xFFFFFFFF &&& (2 ^ (min 200 (32 - 30)) - 1) ∧
    set_bits 0x12345678 0xFFFFFFFF 30 200 < 2 ^ 32 ∧
    set_bits 0x12345678 0xFFFFFFFF 32 200 = 0x12345678 :=
  set_bits_field 0x12345678 0xFFFFFFFF 30 200 32 (by decide) (by decide) (by decide)

/-! ## Normal forms of the register operations -/

theorem read_crc_eq (a : Nat) (data : List Nat) :
    get_sum_byte (((0 + bytes_sum [BL0940_Head_Read, a] 2) % 65536
      + bytes_sum data (4 - 1)) % 65536) = reg_resp_crc a data := by
  rw [get_sum_byte_eq, bytes_sum_eq, bytes_sum_eq]
  unfold reg_resp_crc spec_checksum
  simp only [List.range_succ, List.range_zero, List.nil_append, List.cons_append,
    List.map_cons, List.map_nil, List.sum_cons, List.sum_nil, rd_cons_zero, rd_cons_succ,
    BL0940_Head_Read]
  omega

theorem bulk_crc_eq (data : List Nat) :
    get_sum_byte ((BL0940_Head_Read + bytes_sum data (BL0940_Len_Readings - 1)) % 65536)
      = bulk_crc data := by
  rw [get_sum_byte_eq, bytes_sum_eq]
  unfold bulk_crc spec_checksum
  simp only [List.sum_cons, BL0940_Head_Read, BL0940_Len_Readings]
  have e : 35 - 1 = 34 := rfl
  rw [e]
  omega

theorem read_register_eq (h : Host τ) (s : BL0940) (w : World τ) (a : Nat) :
    read_register h s w a =
      if (reg_cmd_send h s w a).1 = false then
        (0, { s with error := .Write }, (reg_cmd_send h s w a).2)
      else if (reg_resp h s w a).1.cnt % 256 < 4 then
        (0, { s with error := .Read_Len }, (reg_resp h s w a).2)
      else if rd (reg_resp h s w a).1.data 3 ≠ reg_resp_crc a (reg_resp h s w a).1.data then
        (0, { s with error := .Read_Crc }, (reg_resp h s w a).2)
      else (get_triple_bytes (reg_resp h s w a).1.data, s, (reg_resp h s w a).2) := by
  unfold read_register
  simp only [read_crc_eq]
  unfold reg_resp reg_cmd_send
  cases (bl0940_uart_send h w s.uart_port_num [BL0940_Head_Read, a]).1 <;> simp

theorem write_register_protect (h : Host τ) (s : BL0940) (w : World τ) (val : Nat) :
    write_register h s w BL0940_Reg_Addr_Write_Protect val =
      if (bl0940_uart_send h w s.uart_port_num
            (write_frame BL0940_Reg_Addr_Write_Protect val)).1 = false then
        (false, { s with error := .Write },
          (bl0940_uart_send h w s.uart_port_num
            (write_frame BL0940_Reg_Addr_Write_Protect val)).2)
      else
        (true, s, (bl0940_uart_send h w s.uart_port_num
            (write_frame BL0940_Reg_Addr_Write_Protect val)).2) := by
  rw [write_register]
  by_cases hx : (bl0940_uart_send h w s.uart_port_num
    (write_frame BL0940_Reg_Addr_Write_Protect val)).1 = true <;> simp [hx]

theorem write_register_other (h : Host τ) (s : BL0940) (w : World τ) (a val : Nat)
    (ha : a ≠ BL0940_Reg_Addr_Write_Protect) :
    write_register h s w a val =
      if (bl0940_uart_send h
            (write_register h s w BL0940_Reg_Addr_Write_Protect BL0940_Unlock_User_Reg).2.2
            (write_register h s w BL0940_Reg_Addr_Write_Protect
              BL0940_Unlock_User_Reg).2.1.uart_port_num
            (write_frame a val)).1 = false then
        (false,
          { (write_register h s w BL0940_Reg_Addr_Write_Protect BL0940_Unlock_User_Reg).2.1
              with error := .Write },
          (bl0940_uart_send h
            (write_register h s w BL0940_Reg_Addr_Write_Protect BL0940_Unlock_User_Reg).2.2
            (write_register h s w BL0940_Reg_Addr_Write_Protect
              BL0940_Unlock_User_Reg).2.1.uart_port_num
            (write_frame a val)).2)
      else if (read_register h
            (write_register h s w BL0940_Reg_Addr_Write_Protect BL0940_Unlock_User_Reg).2.1
            (bl0940_uart_send h
              (write_register h s w BL0940_Reg_Addr_Write_Protect BL0940_Unlock_User_Reg).2.2
              (write_register h s w BL0940_Reg_Addr_Write_Protect
                BL0940_Unlock_User_Reg).2.1.uart_port_num
              (write_frame a val)).2 a).1 ≠ val then
        (false,
          { (read_register h
              (write_register h s w BL0940_Reg_Addr_Write_Protect BL0940_Unlock_User_Reg).2.1
              (bl0940_uart_send h
                (write_register h s w BL0940_Reg_Addr_Write_Protect
                  BL0940_Unlock_User_Reg).2.2
                (write_register h s w BL0940_Reg_Addr_Write_Protect
                  BL0940_Unlock_User_Reg).2.1.uart_port_num
                (write_frame a val)).2 a).2.1 with error := .Write_Reg },
          (read_register h
              (write_register h s w BL0940_Reg_Addr_Write_Protect BL0940_Unlock_User_Reg).2.1
              (bl0940_uart_send h
                (write_register h s w BL0940_Reg_Addr_Write_Protect
                  BL0940_Unlock_User_Reg).2.2
                (write_register h s w BL0940_Reg_Addr_Write_Protect
                  BL0940_Unlock_User_Reg).2.1.uart_port_num
                (write_frame a val)).2 a).2.2)
      else
        (true,
          (write_register h
            (read_register h
              (write_register h s w BL0940_Reg_Addr_Write_Protect BL0940_Unlock_User_Reg).2.1
              (bl0940_uart_send h
                (write_register h s w BL0940_Reg_Addr_Write_Protect
                  BL0940_Unlock_User_Reg).2.2
                (write_register h s w BL0940_Reg_Addr_Write_Protect
                  BL0940_Unlock_User_Reg).2.1.uart_port_num
                (write_frame a val)).2 a).2.1
            (read_register h
              (write_register h s w BL0940_Reg_Addr_Write_Protect BL0940_Unlock_User_Reg).2.1
              (bl0940_uart_send h
                (write_register h s w BL0940_Reg_Addr_Write_Protect
                  BL0940_Unlock_User_Reg).2.2
                (write_register h s w BL0940_Reg_Addr_Write_Protect
                  BL0940_Unlock_User_Reg).2.1.uart_port_num
                (write_frame a val)).2 a).2.2
            BL0940_Reg_Addr_Write_Protect 0x00).2) := by
  rw [write_register]
  simp only [ha, ne_eq, not_false_eq_true, dite_true, dite_false]
  by_cases hx : (bl0940_uart_send h
            (write_register h s w BL0940_Reg_Addr_Write_Protect BL0940_Unlock_User_Reg).2.2
            (write_register h s w BL0940_Reg_Addr_Write_Protect
              BL0940_Unlock_User_Reg).2.1.uart_port_num
            (write_frame a val)).1 = true <;> simp [hx]

theorem get_readings_eq (h : Host τ) (s : BL0940) (w : World τ) :
    bl0940_get_readings h s w =
      if (bulk_cmd_send h s w).1 = false then
        (false, { s with error := .Write }, (bulk_cmd_send h s w).2)
      else if (bulk_resp h s w).1.cnt % 256 < 35 then
        (false, { s with error := .Read_Len }, (bulk_resp h s w).2)
      else if rd (bulk_resp h s w).1.data 34 ≠ bulk_crc (bulk_resp h s w).1.data then
        (false, { s with error := .Read_Crc }, (bulk_resp h s w).2)
      else if (angle_cmd_send h s w).1 = false then
        (false, { bulk_decoded s (bulk_resp h s w).1.data with error := .Write },
          (angle_cmd_send h s w).2)
      else if (angle_resp h s w).1.cnt % 256 < 4 then
        (false, { bulk_decoded s (bulk_resp h s w).1.data with error := .Read_Len },
          (angle_resp h s w).2)
      else if rd (angle_resp h s w).1.data 3 ≠
          reg_resp_crc BL0940_Reg_Addr_Angle (angle_resp h s w).1.data then
        (false, { bulk_decoded s (bulk_resp h s w).1.data with error := .Read_Crc },
          (angle_resp h s w).2)
      else
        (true,
          { bulk_decoded s (bulk_resp h s w).1.data with
            phase_angle :=
              360 * angle_fraction s (get_triple_bytes (angle_resp h s w).1.data)
            power_factor :=
              h.cos (2 * PI *
                angle_fraction s (get_triple_bytes (angle_resp h s w).1.data)) },
          (angle_resp h s w).2) := by
  unfold bl0940_get_readings
  simp only [bulk_crc_eq, read_register_eq]
  unfold angle_cmd_send angle_resp reg_resp reg_cmd_send bulk_resp bulk_cmd_send
  simp only [BL0940_Len_Readings]
  generalize hr1 : bl0940_uart_send h w s.uart_port_num
      [BL0940_Head_Read, BL0940_Get_Readings] = r1
  generalize hq1 : bl0940_uart_receive h r1.2 s.uart_port_num 35 BL0940_Timeout_ms = q1
  generalize hr2 : bl0940_uart_send h q1.2 s.uart_port_num
      [BL0940_Head_Read, BL0940_Reg_Addr_Angle] = r2
  generalize hq2 : bl0940_uart_receive h r2.2 s.uart_port_num 4 BL0940_Timeout_ms = q2
  rw [show 35 - 1 = 34 from rfl]
  by_cases c1 : r1.1 = true
  · by_cases c2 : q1.1.cnt % 256 < 35
    · simp [c1, c2]
    · by_cases c3 : rd q1.1.data 34 = bulk_crc q1.1.data
      · by_cases c4 : r2.1 = true
        · by_cases c5 : q2.1.cnt % 256 < 4
          · simp [c1, c2, c3, c4, c5, bulk_decoded]
          · by_cases c6 : rd q2.1.data 3 = reg_resp_crc BL0940_Reg_Addr_Angle q2.1.data
            · simp [c1, c2, c3, c4, c5, c6, bulk_decoded, angle_fraction]
            · simp [c1, c2, c3, c4, c5, c6, bulk_decoded]
        · simp [c1, c2, c3, c4, bulk_decoded]
      · simp [c1, c2, c3]
  · simp [c1]

/-! ## Reading measurements -/

/-- C1 (counterexample). A good bulk frame followed by a one-byte-short
phase-angle response: `bl0940_get_readings` fails with `Read_Len`, yet the
voltage field no longer holds its previous value. -/
theorem get_readings_mixed_snapshot :
    (bl0940_get_readings scriptHost session0 world_angle_short).1 = false ∧
    (bl0940_get_readings scriptHost session0 world_angle_short).2.1.error = .Read_Len ∧
    (bl0940_get_readings scriptHost session0 world_angle_short).2.1.voltage
      ≠ session0.voltage := by
  have c1 : (bulk_cmd_send scriptHost session0 world_angle_short).1 = true := by decide
  have c2 : ¬ (bulk_resp scriptHost session0 world_angle_short).1.cnt % 256 < 35 := by decide
  have c3 : rd (bulk_resp scriptHost session0 world_angle_short).1.data 34 =
      bulk_crc (bulk_resp scriptHost session0 world_angle_short).1.data := by decide
  have c4 : (angle_cmd_send scriptHost session0 world_angle_short).1 = true := by decide
  have c5 : (angle_resp scriptHost session0 world_angle_short).1.cnt % 256 < 4 := by decide
  have e : get_triple_bytes
      (List.drop BL0940_Readings_Pos_V (bulk_resp scriptHost session0 world_angle_short).1.data)
      = 80000 := by decide
  rw [get_readings_eq]
  simp only [c1, c2, c3, c4, c5, Bool.true_eq_false, if_false, if_true, ne_eq,
    not_true_eq_false]
  refine ⟨trivial, trivial, ?_⟩
  simp only [bulk_decoded, e]
  norm_num [BL0940_Coefficient_V, BL0940_Vref, session0]

/-- C1 (amended). When `bl0940_get_readings` fails, `phase_angle` and
`power_factor` keep their previous values; if the failure is in the bulk phase
(send, frame length or checksum) all seven snapshot fields keep their previous
values; if the bulk phase succeeded and the phase-angle register read failed, the
five bulk-derived fields hold the values decoded from the bulk frame. -/
theorem get_readings_failure_snapshot (h : Host τ) (s : BL0940) (w : World τ)
    (hfail : (bl0940_get_readings h s w).1 = false) :
    (bl0940_get_readings h s w).2.1.phase_angle = s.phase_angle ∧
    (bl0940_get_readings h s w).2.1.power_factor = s.power_factor ∧
    (((bulk_cmd_send h s w).1 = false ∨ (bulk_resp h s w).1.cnt % 256 < 35 ∨
        rd (bulk_resp h s w).1.data 34 ≠ bulk_crc (bulk_resp h s w).1.data) →
      snapshot (bl0940_get_readings h s w).2.1 = snapshot s) ∧
    (¬ ((bulk_cmd_send h s w).1 = false ∨ (bulk_resp h s w).1.cnt % 256 < 35 ∨
        rd (bulk_resp h s w).1.data 34 ≠ bulk_crc (bulk_resp h s w).1.data) →
      (bl0940_get_readings h s w).2.1.voltage
          = (get_triple_bytes ((bulk_resp h s w).1.data.drop 10) : ℚ)
            * BL0940_Coefficient_V * s.voltage_divider ∧
      (bl0940_get_readings h s w).2.1.current
          = (get_triple_bytes ((bulk_resp h s w).1.data.drop 4) : ℚ)
            * BL0940_Coefficient_I / s.r_shunt_ohm ∧
      (bl0940_get_readings h s w).2.1.power
          = (get_triple_bytes ((bulk_resp h s w).1.data.drop 16) : ℚ)
            * BL0940_Coefficient_W * s.voltage_divider / s.r_shunt_ohm ∧
      (bl0940_get_readings h s w).2.1.energy
          = (get_triple_bytes ((bulk_resp h s w).1.data.drop 22) : ℚ)
            * BL0940_Coefficient_kWh * s.voltage_divider / s.r_shunt_ohm ∧
      (bl0940_get_readings h s w).2.1.temp_internal
          = (170 / 448)
            * ((get_triple_bytes ((bulk_resp h s w).1.data.drop 28) : ℚ) / 2 - 32) - 45) := by
  rw [get_readings_eq] at hfail ⊢
  by_cases c1 : (bulk_cmd_send h s w).1 = false
  · simp [c1, snapshot]
  · by_cases c2 : (bulk_resp h s w).1.cnt % 256 < 35
    · simp [c1, c2, snapshot]
    · by_cases c3 : rd (bulk_resp h s w).1.data 34 = bulk_crc (bulk_resp h s w).1.data
      · by_cases c4 : (angle_cmd_send h s w).1 = false
        · simp [c1, c2, c3, c4, bulk_decoded, BL0940_Readings_Pos_V, BL0940_Readings_Pos_I,
            BL0940_Readings_Pos_W, BL0940_Readings_Pos_Pulses,
            BL0940_Readings_Pos_Temp_Internal]
        · by_cases c5 : (angle_resp h s w).1.cnt % 256 < 4
          · simp [c1, c2, c3, c4, c5, bulk_decoded, BL0940_Readings_Pos_V,
              BL0940_Readings_Pos_I, BL0940_Readings_Pos_W, BL0940_Readings_Pos_Pulses,
              BL0940_Readings_Pos_Temp_Internal]
          · by_cases c6 : rd (angle_resp h s w).1.data 3 =
                reg_resp_crc BL0940_Reg_Addr_Angle (angle_resp h s w).1.data
            · simp [c1, c2, c3, c4, c5, c6] at hfail
            · simp [c1, c2, c3, c4, c5, c6, bulk_decoded, BL0940_Readings_Pos_V,
                BL0940_Readings_Pos_I, BL0940_Readings_Pos_W, BL0940_Readings_Pos_Pulses,
                BL0940_Readings_Pos_Temp_Internal]
      · simp [c1, c2, c3, snapshot]

theorem get_readings_failure_snapshot_witness :
    (bl0940_get_readings scriptHost session0 world_angle_short).1 = false ∧
    (bl0940_get_readings scriptHost session0 world_angle_short).2.1.phase_angle
      = session0.phase_angle ∧
    (bl0940_get_readings scriptHost session0 world_angle_short).2.1.power_factor
      = session0.power_factor ∧
    (bl0940_get_readings scriptHost session0 world_angle_short).2.1.voltage
      = (get_triple_bytes
          ((bulk_resp scriptHost session0 world_angle_short).1.data.drop 10) : ℚ)
        * BL0940_Coefficient_V * session0.voltage_divider ∧
    (bl0940_get_readings scriptHost session0 world_bulk_short).1 = false ∧
    snapshot (bl0940_get_readings scriptHost session0 world_bulk_short).2.1
      = snapshot session0 :=
  ⟨by decide,
   (get_readings_failure_snapshot scriptHost session0 world_angle_short (by decide)).1,
   (get_readings_failure_snapshot scriptHost session0 world_angle_short (by decide)).2.1,
   ((get_readings_failure_snapshot scriptHost session0 world_angle_short (by decide)).2.2.2
      (by decide)).1,
   by decide,
   (get_readings_failure_snapshot scriptHost session0 world_bulk_short (by decide)).2.2.1
      (by decide)⟩

/-- The error recorded by `bl0940_get_readings`, as the kind of the first failing
step. -/
theorem get_readings_error (h : Host τ) (s : BL0940) (w : World τ) :
    (bl0940_get_readings h s w).2.1.error =
      if (bulk_cmd_send h s w).1 = false then .Write
      else if (bulk_resp h s w).1.cnt % 256 < 35 then .Read_Len
      else if rd (bulk_resp h s w).1.data 34 ≠ bulk_crc (bulk_resp h s w).1.data then
        .Read_Crc
      else if (angle_cmd_send h s w).1 = false then .Write
      else if (angle_resp h s w).1.cnt % 256 < 4 then .Read_Len
      else if rd (angle_resp h s w).1.data 3 ≠
          reg_resp_crc BL0940_Reg_Addr_Angle (angle_resp h s w).1.data then .Read_Crc
      else .None := by
  rw [get_readings_eq]
  split_ifs <;> rfl

theorem get_readings_result (h : Host τ) (s : BL0940) (w : World τ) :
    (bl0940_get_readings h s w).1 =
      if (bulk_cmd_send h s w).1 = false then false
      else if (bulk_resp h s w).1.cnt % 256 < 35 then false
      else if rd (bulk_resp h s w).1.data 34 ≠ bulk_crc (bulk_resp h s w).1.data then false
      else if (angle_cmd_send h s w).1 = false then false
      else if (angle_resp h s w).1.cnt % 256 < 4 then false
      else if rd (angle_resp h s w).1.data 3 ≠
          reg_resp_crc BL0940_Reg_Addr_Angle (angle_resp h s w).1.data then false
      else true := by
  rw [get_readings_eq]
  split_ifs <;> rfl

/-- C7. `bl0940_get_readings` returns true exactly when the bulk send
succeeds, at least 35 bytes arrive, byte 34 matches the checksum, and the
phase-angle read's send, length and checksum all succeed; the error field then
holds the kind of the first failing step (`Write`, `Read_Len`, `Read_Crc`), or
`None` when no step fails; and, whatever the error was before the call, the result
is true if and only if the error is `None` afterwards. -/
theorem get_readings_true_iff (h : Host τ) (s : BL0940) (w : World τ) :
    ((bl0940_get_readings h s w).1 = true ↔
      ((bulk_cmd_send h s w).1 = true ∧ 35 ≤ (bulk_resp h s w).1.cnt % 256 ∧
       rd (bulk_resp h s w).1.data 34 = bulk_crc (bulk_resp h s w).1.data ∧
       (angle_cmd_send h s w).1 = true ∧ 4 ≤ (angle_resp h s w).1.cnt % 256 ∧
       rd (angle_resp h s w).1.data 3 =
         reg_resp_crc BL0940_Reg_Addr_Angle (angle_resp h s w).1.data)) ∧
    (bl0940_get_readings h s w).2.1.error =
      (if (bulk_cmd_send h s w).1 = false then .Write
       else if (bulk_resp h s w).1.cnt % 256 < 35 then .Read_Len
       else if rd (bulk_resp h s w).1.data 34 ≠ bulk_crc (bulk_resp h s w).1.data then
         .Read_Crc
       else if (angle_cmd_send h s w).1 = false then .Write
       else if (angle_resp h s w).1.cnt % 256 < 4 then .Read_Len
       else if rd (angle_resp h s w).1.data 3 ≠
           reg_resp_crc BL0940_Reg_Addr_Angle (angle_resp h s w).1.data then .Read_Crc
       else .None) ∧
    ((bl0940_get_readings h s w).1 = true ↔
      (bl0940_get_readings h s w).2.1.error = .None) := by
  refine ⟨?_, get_readings_error h s w, ?_⟩
  · rw [get_readings_result]
    split_ifs <;> simp_all
  · rw [get_readings_result, get_readings_error]
    split_ifs <;> simp

/-- C9. If the bulk command send succeeds but fewer than 35 bytes are
delivered, `bl0940_get_readings` returns false with `Read_Len`, hands no further
frame to the transport, and leaves all seven snapshot fields as they were. -/
theorem get_readings_short_frame (h : Host τ) (s : BL0940) (w : World τ)
    (hsend : (bulk_cmd_send h s w).1 = true)
    (hshort : (bulk_resp h s w).1.cnt % 256 < 35) :
    (bl0940_get_readings h s w).1 = false ∧
    (bl0940_get_readings h s w).2.1.error = .Read_Len ∧
    (bl0940_get_readings h s w).2.2.sent
      = w.sent ++ [[BL0940_Head_Read, BL0940_Get_Readings]] ∧
    snapshot (bl0940_get_readings h s w).2.1 = snapshot s := by
  rw [get_readings_eq]
  simp only [hsend, hshort, Bool.true_eq_false, if_false, if_true]
  refine ⟨?_, ?_, ?_, ?_⟩ <;> trivial

theorem get_readings_short_frame_witness :
    (bulk_resp scriptHost session0 world_bulk_short).1.cnt = 34 ∧
    (bl0940_get_readings scriptHost session0 world_bulk_short).1 = false ∧
    (bl0940_get_readings scriptHost session0 world_bulk_short).2.1.error = .Read_Len ∧
    (bl0940_get_readings scriptHost session0 world_bulk_short).2.2.sent
      = world_bulk_short.sent ++ [[BL0940_Head_Read, BL0940_Get_Readings]] ∧
    snapshot (bl0940_get_readings scriptHost session0 world_bulk_short).2.1
      = snapshot session0 :=
  ⟨by decide,
   get_readings_short_frame scriptHost session0 world_bulk_short (by decide) (by decide)⟩

/-- C6. A tampered checksum byte is rejected with `Read_Crc`, each part
under its own conditions only.  Register read: when the command send succeeds and
at least 4 bytes arrive, a last byte different from
`0xFF - ((0x58 + a + b0 + b1 + b2) mod 256)` makes `read_register` record
`Read_Crc` and return 0, and a last byte equal to it is accepted (value decoded,
session untouched).  Bulk read: when the command send succeeds and at least 35
bytes arrive, a last byte different from
`0xFF - ((0x58 + sum of the first 34 bytes) mod 256)` makes `bl0940_get_readings`
return false with `Read_Crc`, and with a last byte equal to it the call ends in
`Read_Crc` only if the phase-angle response itself has a checksum mismatch. -/
theorem tampered_checksum_rejected (h : Host τ) (s : BL0940) (w : World τ) (a : Nat) :
    reg_resp_crc a (reg_resp h s w a).1.data
      = 0xFF - (0x58 + a + rd (reg_resp h s w a).1.data 0 + rd (reg_resp h s w a).1.data 1
          + rd (reg_resp h s w a).1.data 2) % 256 ∧
    bulk_crc (bulk_resp h s w).1.data
      = 0xFF - (0x58 + ((List.range 34).map (rd (bulk_resp h s w).1.data)).sum) % 256 ∧
    ((reg_cmd_send h s w a).1 = true → 4 ≤ (reg_resp h s w a).1.cnt % 256 →
      rd (reg_resp h s w a).1.data 3 ≠ reg_resp_crc a (reg_resp h s w a).1.data →
      (read_register h s w a).1 = 0 ∧ (read_register h s w a).2.1.error = .Read_Crc) ∧
    ((reg_cmd_send h s w a).1 = true → 4 ≤ (reg_resp h s w a).1.cnt % 256 →
      rd (reg_resp h s w a).1.data 3 = reg_resp_crc a (reg_resp h s w a).1.data →
      (read_register h s w a).1 = get_triple_bytes (reg_resp h s w a).1.data ∧
      (read_register h s w a).2.1 = s) ∧
    ((bulk_cmd_send h s w).1 = true → 35 ≤ (bulk_resp h s w).1.cnt % 256 →
      rd (bulk_resp h s w).1.data 34 ≠ bulk_crc (bulk_resp h s w).1.data →
      (bl0940_get_readings h s w).1 = false ∧
      (bl0940_get_readings h s w).2.1.error = .Read_Crc) ∧
    ((bulk_cmd_send h s w).1 = true → 35 ≤ (bulk_resp h s w).1.cnt % 256 →
      rd (bulk_resp h s w).1.data 34 = bulk_crc (bulk_resp h s w).1.data →
      ((bl0940_get_readings h s w).2.1.error = .Read_Crc ↔
        ((angle_cmd_send h s w).1 = true ∧ 4 ≤ (angle_resp h s w).1.cnt % 256 ∧
          rd (angle_resp h s w).1.data 3 ≠
            reg_resp_crc BL0940_Reg_Addr_Angle (angle_resp h s w).1.data))) := by
  refine ⟨?_, ?_, ?_, ?_, ?_, ?_⟩
  · simp only [reg_resp_crc, spec_checksum, List.sum_cons, List.sum_nil]
    omega
  · simp only [bulk_crc, spec_checksum, List.sum_cons]
  · intro hs hl hne
    have hl' : ¬ (reg_resp h s w a).1.cnt % 256 < 4 := by omega
    rw [read_register_eq]
    simp [hs, hl', hne]
  · intro hs hl heq
    have hl' : ¬ (reg_resp h s w a).1.cnt % 256 < 4 := by omega
    rw [read_register_eq]
    simp [hs, hl', heq]
  · intro hbs hbl hne
    have hbl' : ¬ (bulk_resp h s w).1.cnt % 256 < 35 := by omega
    rw [get_readings_result, get_readings_error]
    simp [hbs, hbl', hne]
  · intro hbs hbl heq
    have hbl' : ¬ (bulk_resp h s w).1.cnt % 256 < 35 := by omega
    rw [get_readings_error]
    simp only [hbs, hbl', heq, Bool.true_eq_false, if_false, ne_eq, not_true_eq_false]
    split_ifs <;> simp_all

theorem tampered_checksum_rejected_witness :
    ((read_register (constHost true angle_tampered) session0 ⟨(), []⟩ 0x0C).1 = 0 ∧
      (read_register (constHost true angle_tampered) session0 ⟨(), []⟩ 0x0C).2.1.error
        = .Read_Crc) ∧
    ((read_register scriptHost session0 world_reg_good 0x0C).1
        = get_triple_bytes (reg_resp scriptHost session0 world_reg_good 0x0C).1.data ∧
      (read_register scriptHost session0 world_reg_good 0x0C).2.1 = session0) ∧
    ((bl0940_get_readings scriptHost session0 world_bulk_byte20).1 = false ∧
      (bl0940_get_readings scriptHost session0 world_bulk_byte20).2.1.error = .Read_Crc) ∧
    ((bl0940_get_readings scriptHost session0 world_good).2.1.error = .Read_Crc ↔
        ((angle_cmd_send scriptHost session0 world_good).1 = true ∧
          4 ≤ (angle_resp scriptHost session0 world_good).1.cnt % 256 ∧
          rd (angle_resp scriptHost session0 world_good).1.data 3 ≠
            reg_resp_crc BL0940_Reg_Addr_Angle
              (angle_resp scriptHost session0 world_good).1.data)) ∧
    ((read_register scriptHost session0 world_tampered 0x0C).1 = 0 ∧
      (read_register scriptHost session0 world_tampered 0x0C).2.1.error = .Read_Crc) ∧
    ((bl0940_get_readings scriptHost session0 world_tampered).1 = false ∧
      (bl0940_get_readings scriptHost session0 world_tampered).2.1.error = .Read_Crc) ∧
    ((read_register scriptHost session0 world_dual 0x0C).1
        = get_triple_bytes (reg_resp scriptHost session0 world_dual 0x0C).1.data ∧
      (read_register scriptHost session0 world_dual 0x0C).2.1 = session0) :=
  ⟨(tampered_checksum_rejected (constHost true angle_tampered) session0 ⟨(), []⟩
      0x0C).2.2.1 (by decide) (by decide) (by decide),
   (tampered_checksum_rejected scriptHost session0 world_reg_good 0x0C).2.2.2.1
      (by decide) (by decide) (by decide),
   (tampered_checksum_rejected scriptHost session0 world_bulk_byte20 0x0C).2.2.2.2.1
      (by decide) (by decide) (by decide),
   (tampered_checksum_rejected scriptHost session0 world_good 0x0C).2.2.2.2.2
      (by decide) (by decide) (by decide),
   (tampered_checksum_rejected scriptHost session0 world_tampered 0x0C).2.2.1
      (by decide) (by decide) (by decide),
   (tampered_checksum_rejected scriptHost session0 world_tampered 0x0C).2.2.2.2.1
      (by decide) (by decide) (by decide),
   (tampered_checksum_rejected scriptHost session0 world_dual 0x0C).2.2.2.1
      (by decide) (by decide) (by decide)⟩

/-! ## Writing registers and applying settings -/

theorem read_register_session (h : Host τ) (s : BL0940) (w : World τ) (a : Nat) :
    (read_register h s w a).2.1 = { s with error := (read_register h s w a).2.1.error } := by
  rw [read_register_eq]
  split_ifs <;> rfl

theorem read_register_lt (h : Host τ) (s : BL0940) (w : World τ) (a : Nat) :
    (read_register h s w a).1 < 2 ^ 24 := by
  rw [read_register_eq]
  split_ifs
  · exact Nat.two_pow_pos 24
  · exact Nat.two_pow_pos 24
  · exact Nat.two_pow_pos 24
  · exact get_triple_bytes_lt _

theorem write_register_session (h : Host τ) (s : BL0940) (w : World τ) (a val : Nat) :
    (write_register h s w a val).2.1
      = { s with error := (write_register h s w a val).2.1.error } := by
  have hp : ∀ (s' : BL0940) (w' : World τ) (v : Nat),
      (write_register h s' w' BL0940_Reg_Addr_Write_Protect v).2.1
        = { s' with error :=
            (write_register h s' w' BL0940_Reg_Addr_Write_Protect v).2.1.error } := by
    intro s' w' v
    rw [write_register_protect]
    split_ifs <;> rfl
  by_cases ha : a = BL0940_Reg_Addr_Write_Protect
  · subst ha; exact hp s w val
  · rw [write_register_other h s w a val ha]
    generalize hu : write_register h s w BL0940_Reg_Addr_Write_Protect
      BL0940_Unlock_User_Reg = u
    have hu' := hp s w BL0940_Unlock_User_Reg
    rw [hu] at hu'
    generalize hr : bl0940_uart_send h u.2.2 u.2.1.uart_port_num (write_frame a val) = r
    generalize hq : read_register h u.2.1 r.2 a = q
    have hq' := read_register_session h u.2.1 r.2 a
    rw [hq] at hq'
    generalize hl : write_register h q.2.1 q.2.2 BL0940_Reg_Addr_Write_Protect 0x00 = l
    have hl' := hp q.2.1 q.2.2 0x00
    rw [hl] at hl'
    split_ifs
    · simp only []; rw [hu']
    · simp only []; rw [hq', hu']
    · simp only []; rw [hl', hq', hu']

theorem write_register_snapshot (h : Host τ) (s : BL0940) (w : World τ) (a val : Nat) :
    snapshot (write_register h s w a val).2.1 = snapshot s := by
  rw [write_register_session]; rfl

theorem send_all_ok (h : Host τ) (hsend : ∀ d p x, (h.send d p x).1 = true)
    (w : World τ) (p : Nat) (x : List Nat) : (bl0940_uart_send h w p x).1 = true :=
  hsend w.dev p x

theorem write_register_protect_ok (h : Host τ) (hsend : ∀ d p x, (h.send d p x).1 = true)
    (s : BL0940) (w : World τ) (val : Nat) :
    write_register h s w BL0940_Reg_Addr_Write_Protect val =
      (true, s, (bl0940_uart_send h w s.uart_port_num
        (write_frame BL0940_Reg_Addr_Write_Protect val)).2) := by
  rw [write_register_protect]
  simp [send_all_ok h hsend]

/-- On a transport where every send succeeds and every response is a full-length,
checksum-valid response for register `a`, `write_register` on a non-protect
register reduces to the comparison of the read-back with the value written. -/
theorem write_register_other_ok (h : Host τ) (s : BL0940) (w : World τ) (a val : Nat)
    (ha : a ≠ BL0940_Reg_Addr_Write_Protect)
    (hsend : ∀ d p x, (h.send d p x).1 = true)
    (hrx : ∀ d p n t, 4 ≤ (h.receive d p n t).1.cnt % 256 ∧
      rd (h.receive d p n t).1.data 3 = reg_resp_crc a (h.receive d p n t).1.data) :
    write_register h s w a val =
      if get_triple_bytes (reg_resp h s
          (bl0940_uart_send h
            (bl0940_uart_send h w s.uart_port_num
              (write_frame BL0940_Reg_Addr_Write_Protect BL0940_Unlock_User_Reg)).2
            s.uart_port_num (write_frame a val)).2 a).1.data ≠ val then
        (false, { s with error := .Write_Reg },
          (reg_resp h s
            (bl0940_uart_send h
              (bl0940_uart_send h w s.uart_port_num
                (write_frame BL0940_Reg_Addr_Write_Protect BL0940_Unlock_User_Reg)).2
              s.uart_port_num (write_frame a val)).2 a).2)
      else
        (true, s,
          (bl0940_uart_send h
            (reg_resp h s
              (bl0940_uart_send h
                (bl0940_uart_send h w s.uart_port_num
                  (write_frame BL0940_Reg_Addr_Write_Protect BL0940_Unlock_User_Reg)).2
                s.uart_port_num (write_frame a val)).2 a).2
            s.uart_port_num (write_frame BL0940_Reg_Addr_Write_Protect 0x00)).2) := by
  rw [write_register_other h s w a val ha]
  simp only [write_register_protect_ok h hsend, send_all_ok h hsend, Bool.true_eq_false,
    if_false]
  have hq : ∀ w' : World τ, read_register h s w' a
      = (get_triple_bytes (reg_resp h s w' a).1.data, s, (reg_resp h s w' a).2) := by
    intro w'
    have h1 : 4 ≤ (reg_resp h s w' a).1.cnt % 256 :=
      (hrx (reg_cmd_send h s w' a).2.dev s.uart_port_num 4 BL0940_Timeout_ms).1
    have h2' : rd (reg_resp h s w' a).1.data 3 = reg_resp_crc a (reg_resp h s w' a).1.data :=
      (hrx (reg_cmd_send h s w' a).2.dev s.uart_port_num 4 BL0940_Timeout_ms).2
    have h1' : ¬ (reg_resp h s w' a).1.cnt % 256 < 4 := by omega
    have h0 : (reg_cmd_send h s w' a).1 = true := send_all_ok h hsend _ _ _
    rw [read_register_eq]
    simp [h0, h1', h2']
  simp only [hq]

theorem write_register_false_error (h : Host τ) (s : BL0940) (w : World τ) (a val : Nat)
    (hf : (write_register h s w a val).1 = false) :
    (write_register h s w a val).2.1.error ≠ .None := by
  by_cases ha : a = BL0940_Reg_Addr_Write_Protect
  · subst ha
    rw [write_register_protect] at hf ⊢
    split_ifs at hf ⊢
    simp
  · rw [write_register_other h s w a val ha] at hf ⊢
    split_ifs at hf ⊢
    · simp
    · simp

theorem apply_settings_eq (h : Host τ) (s : BL0940) (w : World τ) :
    bl0940_apply_settings h s w =
      if (read_register h { s with error := .None } w BL0940_Reg_Addr_Mode_Settings).2.1.error
          ≠ .None then
        (false, (read_register h { s with error := .None } w BL0940_Reg_Addr_Mode_Settings).2.1,
          (read_register h { s with error := .None } w BL0940_Reg_Addr_Mode_Settings).2.2)
      else
        write_register h
          (read_register h { s with error := .None } w BL0940_Reg_Addr_Mode_Settings).2.1
          (read_register h { s with error := .None } w BL0940_Reg_Addr_Mode_Settings).2.2
          BL0940_Reg_Addr_Mode_Settings
          (apply_settings_reg_mode s
            (read_register h { s with error := .None } w BL0940_Reg_Addr_Mode_Settings).1) := by
  unfold bl0940_apply_settings
  have e : apply_settings_reg_mode
      (read_register h { s with error := .None } w BL0940_Reg_Addr_Mode_Settings).2.1
      = apply_settings_reg_mode s := by
    rw [read_register_session]; rfl
  simp only [e]

/-- C2 (counterexample). The unlock send fails, every other step succeeds:
`bl0940_apply_settings` returns true while the error field holds `Write`. -/
theorem apply_settings_true_with_error :
    (bl0940_apply_settings scriptHost session0 world_unlock_fails).1 = true ∧
    (bl0940_apply_settings scriptHost session0 world_unlock_fails).2.1.error = .Write := by
  rw [apply_settings_eq]
  simp only [write_register_other _ _ _ _ _ (show BL0940_Reg_Addr_Mode_Settings ≠
    BL0940_Reg_Addr_Write_Protect by decide), write_register_protect]
  decide

/-- C2 (amended). After `bl0940_apply_settings` returns, a false result
always comes with an error other than `None` (so error `None` implies a true
result); and on a transport where every send succeeds and every response is a
full-length, checksum-valid response for the mode register, the result is true
if and only if the error is `None`. -/
theorem apply_settings_result_error (h : Host τ) (s : BL0940) (w : World τ) :
    ((bl0940_apply_settings h s w).1 = false →
      (bl0940_apply_settings h s w).2.1.error ≠ .None) ∧
    ((∀ d p x, (h.send d p x).1 = true) →
     (∀ d p n t, 4 ≤ (h.receive d p n t).1.cnt % 256 ∧
        rd (h.receive d p n t).1.data 3
          = reg_resp_crc BL0940_Reg_Addr_Mode_Settings (h.receive d p n t).1.data) →
     ((bl0940_apply_settings h s w).1 = true ↔
        (bl0940_apply_settings h s w).2.1.error = .None)) := by
  constructor
  · intro hf
    rw [apply_settings_eq] at hf ⊢
    split_ifs at hf ⊢ with hc
    · exact hc
    · exact write_register_false_error _ _ _ _ _ hf
  · intro hsend hrx
    rw [apply_settings_eq]
    have hq : ∀ (s' : BL0940) (w' : World τ), read_register h s' w' BL0940_Reg_Addr_Mode_Settings
        = (get_triple_bytes (reg_resp h s' w' BL0940_Reg_Addr_Mode_Settings).1.data, s',
            (reg_resp h s' w' BL0940_Reg_Addr_Mode_Settings).2) := by
      intro s' w'
      have h1 : 4 ≤ (reg_resp h s' w' BL0940_Reg_Addr_Mode_Settings).1.cnt % 256 :=
        (hrx (reg_cmd_send h s' w' BL0940_Reg_Addr_Mode_Settings).2.dev s'.uart_port_num 4
          BL0940_Timeout_ms).1
      have h2 : rd (reg_resp h s' w' BL0940_Reg_Addr_Mode_Settings).1.data 3
          = reg_resp_crc BL0940_Reg_Addr_Mode_Settings
            (reg_resp h s' w' BL0940_Reg_Addr_Mode_Settings).1.data :=
        (hrx (reg_cmd_send h s' w' BL0940_Reg_Addr_Mode_Settings).2.dev s'.uart_port_num 4
          BL0940_Timeout_ms).2
      have h1' : ¬ (reg_resp h s' w' BL0940_Reg_Addr_Mode_Settings).1.cnt % 256 < 4 := by
        omega
      have h0 : (reg_cmd_send h s' w' BL0940_Reg_Addr_Mode_Settings).1 = true :=
        send_all_ok h hsend _ _ _
      rw [read_register_eq]
      simp [h0, h1', h2]
    simp only [hq, ne_eq, not_true_eq_false, if_false]
    rw [write_register_other_ok h _ _ _ _ (by decide) hsend hrx]
    split_ifs <;> simp

theorem mode_zero_fixture_ok :
    4 ≤ mode_zero_fixture.cnt % 256 ∧
    rd mode_zero_fixture.data 3
      = reg_resp_crc BL0940_Reg_Addr_Mode_Settings mode_zero_fixture.data := by
  decide

theorem mode_echo_fixture_ok :
    4 ≤ mode_echo_fixture.cnt % 256 ∧
    rd mode_echo_fixture.data 3
      = reg_resp_crc BL0940_Reg_Addr_Mode_Settings mode_echo_fixture.data := by
  decide

theorem mode_echo_fixture_value : get_triple_bytes mode_echo_fixture.data = 1 := by decide

theorem mode_echo_fixture_not_two : get_triple_bytes mode_echo_fixture.data ≠ 2 := by decide

theorem apply_settings_result_error_witness :
    ((bl0940_apply_settings (constHost true mode_zero_fixture) session0 ⟨(), []⟩).1 = true ↔
      (bl0940_apply_settings (constHost true mode_zero_fixture) session0 ⟨(), []⟩).2.1.error
        = .None) ∧
    (bl0940_apply_settings (constHost false mode_zero_fixture) session0 ⟨(), []⟩).1 = false ∧
    (bl0940_apply_settings (constHost false mode_zero_fixture) session0 ⟨(), []⟩).2.1.error
      ≠ .None :=
  ⟨(apply_settings_result_error (constHost true mode_zero_fixture) session0 ⟨(), []⟩).2
      (fun _ _ _ => rfl) (fun _ _ _ _ => mode_zero_fixture_ok),
   by rw [apply_settings_eq]; decide,
   (apply_settings_result_error (constHost false mode_zero_fixture) session0 ⟨(), []⟩).1
      (by rw [apply_settings_eq]; decide)⟩

/-- C3 (counterexample). On a transport where every send succeeds and the
read-back echoes the written value `1` in a well-formed response, a write to the
mode register succeeds with four frames handed to the transport, not three. -/
theorem write_register_four_sends :
    (4 ≤ mode_echo_fixture.cnt % 256 ∧
      rd mode_echo_fixture.data 3
        = reg_resp_crc BL0940_Reg_Addr_Mode_Settings mode_echo_fixture.data ∧
      get_triple_bytes mode_echo_fixture.data = 1) ∧
    (write_register (constHost true mode_echo_fixture) session0 ⟨(), []⟩
      BL0940_Reg_Addr_Mode_Settings 1).1 = true ∧
    (write_register (constHost true mode_echo_fixture) session0 ⟨(), []⟩
      BL0940_Reg_Addr_Mode_Settings 1).2.2.sent.length = 4 ∧
    (write_register (constHost true mode_echo_fixture) session0 ⟨(), []⟩
      BL0940_Reg_Addr_Mode_Settings 1).2.2.sent.length ≠ 3 := by
  rw [write_register_other_ok (constHost true mode_echo_fixture) session0 ⟨(), []⟩
    BL0940_Reg_Addr_Mode_Settings 1 (by decide) (fun _ _ _ => rfl)
    (fun _ _ _ _ => mode_echo_fixture_ok)]
  decide

/-- C3 (amended). On a transport where every send succeeds and every
register read echoes back exactly the written value in a well-formed response,
`write_register` on a register other than the write-protect register returns
true and hands exactly four frames to the transport (unlock, write, the read
command of the read-back, relock); on the write-protect register itself it
returns true and hands over exactly one frame. -/
theorem write_register_echo_sends (h : Host τ) (s : BL0940) (w : World τ) (a val : Nat)
    (ha : a ≠ BL0940_Reg_Addr_Write_Protect)
    (hsend : ∀ d p x, (h.send d p x).1 = true)
    (hecho : ∀ d p n t, 4 ≤ (h.receive d p n t).1.cnt % 256 ∧
      rd (h.receive d p n t).1.data 3 = reg_resp_crc a (h.receive d p n t).1.data ∧
      get_triple_bytes (h.receive d p n t).1.data = val) :
    (write_register h s w a val).1 = true ∧
    (write_register h s w a val).2.2.sent =
      w.sent ++ [write_frame BL0940_Reg_Addr_Write_Protect BL0940_Unlock_User_Reg,
        write_frame a val, [BL0940_Head_Read, a],
        write_frame BL0940_Reg_Addr_Write_Protect 0x00] ∧
    (write_register h s w a val).2.2.sent.length = w.sent.length + 4 ∧
    (write_register h s w BL0940_Reg_Addr_Write_Protect val).1 = true ∧
    (write_register h s w BL0940_Reg_Addr_Write_Protect val).2.2.sent =
      w.sent ++ [write_frame BL0940_Reg_Addr_Write_Protect val] ∧
    (write_register h s w BL0940_Reg_Addr_Write_Protect val).2.2.sent.length
      = w.sent.length + 1 := by
  have hv : ∀ w' : World τ, get_triple_bytes (reg_resp h s w' a).1.data = val := fun w' =>
    (hecho (reg_cmd_send h s w' a).2.dev s.uart_port_num 4 BL0940_Timeout_ms).2.2
  rw [write_register_other_ok h s w a val ha hsend
    (fun d p n t => ⟨(hecho d p n t).1, (hecho d p n t).2.1⟩),
    write_register_protect_ok h hsend]
  simp only [hv, ne_eq, not_true_eq_false, if_false]
  refine ⟨trivial, ?_, ?_, trivial, rfl, ?_⟩
  · simp [bl0940_uart_send, reg_resp, reg_cmd_send, bl0940_uart_receive]
  · simp [bl0940_uart_send, reg_resp, reg_cmd_send, bl0940_uart_receive]
  · simp [bl0940_uart_send]

theorem write_register_echo_sends_witness :
    (write_register (constHost true mode_echo_fixture) session0 ⟨(), []⟩ 0x18 1).1 = true ∧
    (write_register (constHost true mode_echo_fixture) session0 ⟨(), []⟩ 0x18 1).2.2.sent =
      [] ++ [write_frame BL0940_Reg_Addr_Write_Protect BL0940_Unlock_User_Reg,
        write_frame 0x18 1, [BL0940_Head_Read, 0x18],
        write_frame BL0940_Reg_Addr_Write_Protect 0x00] ∧
    (write_register (constHost true mode_echo_fixture) session0 ⟨(), []⟩ 0x18
      1).2.2.sent.length = 0 + 4 ∧
    (write_register (constHost true mode_echo_fixture) session0 ⟨(), []⟩
      BL0940_Reg_Addr_Write_Protect 1).1 = true ∧
    (write_register (constHost true mode_echo_fixture) session0 ⟨(), []⟩
      BL0940_Reg_Addr_Write_Protect 1).2.2.sent =
      [] ++ [write_frame BL0940_Reg_Addr_Write_Protect 1] ∧
    (write_register (constHost true mode_echo_fixture) session0 ⟨(), []⟩
      BL0940_Reg_Addr_Write_Protect 1).2.2.sent.length = 0 + 1 :=
  write_register_echo_sends (constHost true mode_echo_fixture) session0 ⟨(), []⟩ 0x18 1
    (by decide) (fun _ _ _ => rfl)
    (fun _ _ _ _ => ⟨mode_echo_fixture_ok.1, mode_echo_fixture_ok.2, mode_echo_fixture_value⟩)

/-- C8. For a register other than the write-protect register, on a
transport where all sends succeed and the read-back response is well-formed but
decodes to a value different from `val`, `write_register` returns false with
`Write_Reg` and the seven snapshot fields are unchanged. -/
theorem write_register_verify_mismatch (h : Host τ) (s : BL0940) (w : World τ) (a val : Nat)
    (ha : a ≠ BL0940_Reg_Addr_Write_Protect)
    (hsend : ∀ d p x, (h.send d p x).1 = true)
    (hresp : ∀ d p n t, 4 ≤ (h.receive d p n t).1.cnt % 256 ∧
      rd (h.receive d p n t).1.data 3 = reg_resp_crc a (h.receive d p n t).1.data ∧
      get_triple_bytes (h.receive d p n t).1.data ≠ val) :
    (write_register h s w a val).1 = false ∧
    (write_register h s w a val).2.1.error = .Write_Reg ∧
    snapshot (write_register h s w a val).2.1 = snapshot s := by
  refine ⟨?_, ?_, write_register_snapshot h s w a val⟩
  · have hv : ∀ w' : World τ, get_triple_bytes (reg_resp h s w' a).1.data ≠ val := fun w' =>
      (hresp (reg_cmd_send h s w' a).2.dev s.uart_port_num 4 BL0940_Timeout_ms).2.2
    rw [write_register_other_ok h s w a val ha hsend
      (fun d p n t => ⟨(hresp d p n t).1, (hresp d p n t).2.1⟩)]
    simp [hv]
  · have hv : ∀ w' : World τ, get_triple_bytes (reg_resp h s w' a).1.data ≠ val := fun w' =>
      (hresp (reg_cmd_send h s w' a).2.dev s.uart_port_num 4 BL0940_Timeout_ms).2.2
    rw [write_register_other_ok h s w a val ha hsend
      (fun d p n t => ⟨(hresp d p n t).1, (hresp d p n t).2.1⟩)]
    simp [hv]

theorem write_register_verify_mismatch_witness :
    (write_register (constHost true mode_echo_fixture) session0 ⟨(), []⟩ 0x18 2).1 = false ∧
    (write_register (constHost true mode_echo_fixture) session0 ⟨(), []⟩ 0x18 2).2.1.error
      = .Write_Reg ∧
    snapshot (write_register (constHost true mode_echo_fixture) session0 ⟨(), []⟩ 0x18 2).2.1
      = snapshot session0 :=
  write_register_verify_mismatch (constHost true mode_echo_fixture) session0 ⟨(), []⟩ 0x18 2
    (by decide) (fun _ _ _ => rfl)
    (fun _ _ _ _ =>
      ⟨mode_echo_fixture_ok.1, mode_echo_fixture_ok.2, mode_echo_fixture_not_two⟩)

theorem apply_settings_reg_mode_testBit (s : BL0940) (m i : Nat) :
    (apply_settings_reg_mode s m).testBit i =
      if i < 32 then
        (if i = 9 then s.setting_ac_freq.testBit 0
         else if i = 8 then s.setting_av_time.testBit 0
         else if i = 4 ∨ i = 5 then s.setting_filter.testBit (i - 4)
         else if i = 0 ∨ i = 1 then s.setting_filter.testBit i
         else m.testBit i)
      else false := by
  unfold apply_settings_reg_mode
  simp only [BL0940_Reg_Mode_Pos_I_Filter, BL0940_Reg_Mode_Pos_V_Filter,
    BL0940_Reg_Mode_Pos_Av_Time, BL0940_Reg_Mode_Pos_AC_Freq]
  rw [set_bits_testBit _ _ 9 1 i (by decide), set_bits_testBit _ _ 8 1 i (by decide),
    set_bits_testBit _ _ 4 2 i (by decide), set_bits_testBit _ _ 0 2 i (by decide)]
  simp only [Nat.testBit_mod_two_pow]
  by_cases c : i < 32
  · simp only [c, if_true]
    by_cases c9 : i = 9
    · subst c9; simp
    · by_cases c8 : i = 8
      · subst c8; simp
      · by_cases c4 : i = 4
        · subst c4; simp
        · by_cases c5 : i = 5
          · subst c5; simp
          · by_cases c0 : i = 0
            · subst c0; simp
            · by_cases c1 : i = 1
              · subst c1; simp
              · have n9 : ¬ (9 ≤ i ∧ i < 9 + 1) := by omega
                have n8 : ¬ (8 ≤ i ∧ i < 8 + 1) := by omega
                have n4 : ¬ (4 ≤ i ∧ i < 4 + 2) := by omega
                have n0 : ¬ (0 ≤ i ∧ i < 0 + 2) := by omega
                have n0' : ¬ i < 2 := by omega
                simp [c9, c8, c4, c5, c0, c1, n9, n8, n4, n0, n0']
  · simp [c]

theorem low_bits_eq (x y k : Nat) (hb : ∀ i, i < k → x.testBit i = y.testBit i) :
    x &&& (2 ^ k - 1) = y &&& (2 ^ k - 1) := by
  apply Nat.eq_of_testBit_eq
  intro i
  simp only [Nat.testBit_and, Nat.testBit_two_pow_sub_one]
  by_cases c : i < k
  · simp [c, hb i c]
  · simp [c]

/-- C10. When the initial read of mode register `0x18` succeeds with
value `m`, `bl0940_apply_settings` passes to `write_register` for register `0x18`
the value `v` equal to `m` with bits [1:0] and bits [5:4] replaced by
`setting_filter`, bit 8 by `setting_av_time` and bit 9 by `setting_ac_freq`, every
other bit being that of `m`; the four fields do not overlap, so each reads back as
its configured enum value. -/
theorem apply_settings_mode_value (h : Host τ) (s : BL0940) (w : World τ)
    (hread : (read_register h { s with error := .None } w
      BL0940_Reg_Addr_Mode_Settings).2.1.error = .None) :
    bl0940_apply_settings h s w =
      write_register h
        (read_register h { s with error := .None } w BL0940_Reg_Addr_Mode_Settings).2.1
        (read_register h { s with error := .None } w BL0940_Reg_Addr_Mode_Settings).2.2
        BL0940_Reg_Addr_Mode_Settings
        (apply_settings_reg_mode s
          (read_register h { s with error := .None } w BL0940_Reg_Addr_Mode_Settings).1) ∧
    (apply_settings_reg_mode s
        (read_register h { s with error := .None } w BL0940_Reg_Addr_Mode_Settings).1)
      &&& 3 = s.setting_filter &&& 3 ∧
    ((apply_settings_reg_mode s
        (read_register h { s with error := .None } w BL0940_Reg_Addr_Mode_Settings).1) >>> 4)
      &&& 3 = s.setting_filter &&& 3 ∧
    ((apply_settings_reg_mode s
        (read_register h { s with error := .None } w BL0940_Reg_Addr_Mode_Settings).1) >>> 8)
      &&& 1 = s.setting_av_time &&& 1 ∧
    ((apply_settings_reg_mode s
        (read_register h { s with error := .None } w BL0940_Reg_Addr_Mode_Settings).1) >>> 9)
      &&& 1 = s.setting_ac_freq &&& 1 ∧
    (∀ i, i ≠ 0 → i ≠ 1 → i ≠ 4 → i ≠ 5 → i ≠ 8 → i ≠ 9 →
      (apply_settings_reg_mode s
        (read_register h { s with error := .None } w
          BL0940_Reg_Addr_Mode_Settings).1).testBit i
      = (read_register h { s with error := .None } w
          BL0940_Reg_Addr_Mode_Settings).1.testBit i) ∧
    ((s.setting_filter = BL0940_Filter_AC_Pass ∨ s.setting_filter = BL0940_Filter_DC_Pass ∨
        s.setting_filter = BL0940_Filter_All) →
      (apply_settings_reg_mode s
          (read_register h { s with error := .None } w BL0940_Reg_Addr_Mode_Settings).1)
        &&& 3 = s.setting_filter ∧
      ((apply_settings_reg_mode s
          (read_register h { s with error := .None } w BL0940_Reg_Addr_Mode_Settings).1)
        >>> 4) &&& 3 = s.setting_filter) ∧
    ((s.setting_av_time = BL0940_Av_Time_400ms ∨ s.setting_av_time = BL0940_Av_Time_800ms) →
      ((apply_settings_reg_mode s
          (read_register h { s with error := .None } w BL0940_Reg_Addr_Mode_Settings).1)
        >>> 8) &&& 1 = s.setting_av_time) ∧
    ((s.setting_ac_freq = BL0940_AC_Freq_50Hz ∨ s.setting_ac_freq = BL0940_AC_Freq_60Hz) →
      ((apply_settings_reg_mode s
          (read_register h { s with error := .None } w BL0940_Reg_Addr_Mode_Settings).1)
        >>> 9) &&& 1 = s.setting_ac_freq) := by
  generalize hm : (read_register h { s with error := .None } w
    BL0940_Reg_Addr_Mode_Settings).1 = m
  have hmlt : m < 2 ^ 24 := by rw [← hm]; exact read_register_lt _ _ _ _
  have f1 : apply_settings_reg_mode s m &&& 3 = s.setting_filter &&& 3 := by
    apply low_bits_eq _ _ 2
    intro i hi
    rw [apply_settings_reg_mode_testBit]
    have : i = 0 ∨ i = 1 := by omega
    rcases this with rfl | rfl <;> simp
  have f2 : (apply_settings_reg_mode s m >>> 4) &&& 3 = s.setting_filter &&& 3 := by
    apply low_bits_eq _ _ 2
    intro i hi
    rw [Nat.testBit_shiftRight, apply_settings_reg_mode_testBit]
    have : i = 0 ∨ i = 1 := by omega
    rcases this with rfl | rfl <;> simp
  have f3 : (apply_settings_reg_mode s m >>> 8) &&& 1 = s.setting_av_time &&& 1 := by
    apply low_bits_eq _ _ 1
    intro i hi
    rw [Nat.testBit_shiftRight, apply_settings_reg_mode_testBit]
    have : i = 0 := by omega
    subst this; simp
  have f4 : (apply_settings_reg_mode s m >>> 9) &&& 1 = s.setting_ac_freq &&& 1 := by
    apply low_bits_eq _ _ 1
    intro i hi
    rw [Nat.testBit_shiftRight, apply_settings_reg_mode_testBit]
    have : i = 0 := by omega
    subst this; simp
  refine ⟨?_, f1, f2, f3, f4, ?_, ?_, ?_, ?_⟩
  · rw [apply_settings_eq, hm]
    simp [hread]
  · intro i i0 i1 i4 i5 i8 i9
    rw [apply_settings_reg_mode_testBit]
    by_cases c : i < 32
    · have n45 : ¬ (i = 4 ∨ i = 5) := by omega
      have n01 : ¬ (i = 0 ∨ i = 1) := by omega
      simp [c, i8, i9, n45, n01]
    · simp only [c, if_false]
      exact (testBit_ge_of_lt hmlt (by omega)).symm
  · intro hf
    rw [f1, f2]
    rcases hf with e | e | e <;> rw [e] <;> decide
  · intro hf
    rw [f3]
    rcases hf with e | e <;> rw [e] <;> decide
  · intro hf
    rw [f4]
    rcases hf with e | e <;> rw [e] <;> decide

theorem apply_settings_mode_value_witness :
    (read_register (constHost true mode_ones_fixture) { session1 with error := .None }
      ⟨(), []⟩ BL0940_Reg_Addr_Mode_Settings).1 = 0xFFFFFF ∧
    apply_settings_reg_mode session1 0xFFFFFF = 0xFFFEEE ∧
    bl0940_apply_settings (constHost true mode_ones_fixture) session1 ⟨(), []⟩ =
      write_register (constHost true mode_ones_fixture)
        (read_register (constHost true mode_ones_fixture) { session1 with error := .None }
          ⟨(), []⟩ BL0940_Reg_Addr_Mode_Settings).2.1
        (read_register (constHost true mode_ones_fixture) { session1 with error := .None }
          ⟨(), []⟩ BL0940_Reg_Addr_Mode_Settings).2.2
        BL0940_Reg_Addr_Mode_Settings
        (apply_settings_reg_mode session1
          (read_register (constHost true mode_ones_fixture) { session1 with error := .None }
            ⟨(), []⟩ BL0940_Reg_Addr_Mode_Settings).1) ∧
    ((apply_settings_reg_mode session1
        (read_register (constHost true mode_ones_fixture) { session1 with error := .None }
          ⟨(), []⟩ BL0940_Reg_Addr_Mode_Settings).1) &&& 3 = session1.setting_filter ∧
     ((apply_settings_reg_mode session1
        (read_register (constHost true mode_ones_fixture) { session1 with error := .None }
          ⟨(), []⟩ BL0940_Reg_Addr_Mode_Settings).1) >>> 4) &&& 3
        = session1.setting_filter) ∧
    ((apply_settings_reg_mode session1
        (read_register (constHost true mode_ones_fixture) { session1 with error := .None }
          ⟨(), []⟩ BL0940_Reg_Addr_Mode_Settings).1) >>> 8) &&& 1
        = session1.setting_av_time ∧
    ((apply_settings_reg_mode session1
        (read_register (constHost true mode_ones_fixture) { session1 with error := .None }
          ⟨(), []⟩ BL0940_Reg_Addr_Mode_Settings).1) >>> 9) &&& 1
        = session1.setting_ac_freq :=
  ⟨by decide, by decide,
   (apply_settings_mode_value (constHost true mode_ones_fixture) session1 ⟨(), []⟩
      (by decide)).1,
   (apply_settings_mode_value (constHost true mode_ones_fixture) session1 ⟨(), []⟩
      (by decide)).2.2.2.2.2.2.1 (Or.inr (Or.inl rfl)),
   (apply_settings_mode_value (constHost true mode_ones_fixture) session1 ⟨(), []⟩
      (by decide)).2.2.2.2.2.2.2.1 (Or.inl rfl),
   (apply_settings_mode_value (constHost true mode_ones_fixture) session1 ⟨(), []⟩
      (by decide)).2.2.2.2.2.2.2.2 (Or.inr rfl)⟩

/-! ## Frames handed to the transport -/

theorem read_register_sent (h : Host τ) (s : BL0940) (w : World τ) (a : Nat) :
    (read_register h s w a).2.2.sent = w.sent ++ [[BL0940_Head_Read, a]] := by
  rw [read_register_eq]
  split_ifs <;> rfl

theorem write_register_protect_sent (h : Host τ) (s : BL0940) (w : World τ) (val : Nat) :
    (write_register h s w BL0940_Reg_Addr_Write_Protect val).2.2.sent
      = w.sent ++ [write_frame BL0940_Reg_Addr_Write_Protect val] := by
  rw [write_register_protect]
  split_ifs <;> rfl

theorem write_register_port (h : Host τ) (s : BL0940) (w : World τ) (a val : Nat) :
    (write_register h s w a val).2.1.uart_port_num = s.uart_port_num := by
  rw [write_register_session]

theorem read_register_port (h : Host τ) (s : BL0940) (w : World τ) (a : Nat) :
    (read_register h s w a).2.1.uart_port_num = s.uart_port_num := by
  rw [read_register_session]

/-- The three ways a write to a register other than the write-protect register
can end, with the frames it has handed to the transport. -/
theorem write_register_other_cases (h : Host τ) (s : BL0940) (w : World τ) (a val : Nat)
    (ha : a ≠ BL0940_Reg_Addr_Write_Protect) :
    ((bl0940_uart_send h
          (write_register h s w BL0940_Reg_Addr_Write_Protect BL0940_Unlock_User_Reg).2.2
          (write_register h s w BL0940_Reg_Addr_Write_Protect
            BL0940_Unlock_User_Reg).2.1.uart_port_num
          (write_frame a val)).1 = false ∧
      (write_register h s w a val).1 = false ∧
      (write_register h s w a val).2.1.error = .Write ∧
      (write_register h s w a val).2.2.sent = w.sent ++
        [write_frame BL0940_Reg_Addr_Write_Protect BL0940_Unlock_User_Reg,
         write_frame a val]) ∨
    ((bl0940_uart_send h
          (write_register h s w BL0940_Reg_Addr_Write_Protect BL0940_Unlock_User_Reg).2.2
          (write_register h s w BL0940_Reg_Addr_Write_Protect
            BL0940_Unlock_User_Reg).2.1.uart_port_num
          (write_frame a val)).1 = true ∧
      (read_register h
          (write_register h s w BL0940_Reg_Addr_Write_Protect BL0940_Unlock_User_Reg).2.1
          (bl0940_uart_send h
            (write_register h s w BL0940_Reg_Addr_Write_Protect BL0940_Unlock_User_Reg).2.2
            (write_register h s w BL0940_Reg_Addr_Write_Protect
              BL0940_Unlock_User_Reg).2.1.uart_port_num
            (write_frame a val)).2 a).1 ≠ val ∧
      (write_register h s w a val).1 = false ∧
      (write_register h s w a val).2.1.error = .Write_Reg ∧
      (write_register h s w a val).2.2.sent = w.sent ++
        [write_frame BL0940_Reg_Addr_Write_Protect BL0940_Unlock_User_Reg,
         write_frame a val, [BL0940_Head_Read, a]]) ∨
    ((bl0940_uart_send h
          (write_register h s w BL0940_Reg_Addr_Write_Protect BL0940_Unlock_User_Reg).2.2
          (write_register h s w BL0940_Reg_Addr_Write_Protect
            BL0940_Unlock_User_Reg).2.1.uart_port_num
          (write_frame a val)).1 = true ∧
      (read_register h
          (write_register h s w BL0940_Reg_Addr_Write_Protect BL0940_Unlock_User_Reg).2.1
          (bl0940_uart_send h
            (write_register h s w BL0940_Reg_Addr_Write_Protect BL0940_Unlock_User_Reg).2.2
            (write_register h s w BL0940_Reg_Addr_Write_Protect
              BL0940_Unlock_User_Reg).2.1.uart_port_num
            (write_frame a val)).2 a).1 = val ∧
      (write_register h s w a val).1 = true ∧
      (write_register h s w a val).2.2.sent = w.sent ++
        [write_frame BL0940_Reg_Addr_Write_Protect BL0940_Unlock_User_Reg,
         write_frame a val, [BL0940_Head_Read, a],
         write_frame BL0940_Reg_Addr_Write_Protect 0x00]) := by
  rw [write_register_other h s w a val ha]
  have hu := write_register_protect_sent h s w BL0940_Unlock_User_Reg
  generalize write_register h s w BL0940_Reg_Addr_Write_Protect BL0940_Unlock_User_Reg = u
    at hu ⊢
  have hr : (bl0940_uart_send h u.2.2 u.2.1.uart_port_num (write_frame a val)).2.sent
      = u.2.2.sent ++ [write_frame a val] := rfl
  generalize bl0940_uart_send h u.2.2 u.2.1.uart_port_num (write_frame a val) = r at hr ⊢
  have hq := read_register_sent h u.2.1 r.2 a
  generalize read_register h u.2.1 r.2 a = q at hq ⊢
  have hl := write_register_protect_sent h q.2.1 q.2.2 0x00
  generalize write_register h q.2.1 q.2.2 BL0940_Reg_Addr_Write_Protect 0x00 = l at hl ⊢
  by_cases c1 : r.1 = true
  · by_cases c2 : q.1 = val
    · right; right
      simp [c1, c2, hl, hq, hr, hu]
    · right; left
      simp [c1, c2, hq, hr, hu]
  · left
    simp [c1, hr, hu]

theorem write_register_fuel_protect (fuel : Nat) (h : Host τ) (s : BL0940) (w : World τ)
    (val : Nat) :
    write_register_fuel (fuel + 1) h s w BL0940_Reg_Addr_Write_Protect val
      = some (write_register h s w BL0940_Reg_Addr_Write_Protect val) := by
  rw [write_register_protect]
  unfold write_register_fuel
  by_cases c : (bl0940_uart_send h w s.uart_port_num
      (write_frame BL0940_Reg_Addr_Write_Protect val)).1 = true <;> simp [c]

theorem write_register_fuel_other (fuel : Nat) (h : Host τ) (s : BL0940) (w : World τ)
    (a val : Nat) (ha : a ≠ BL0940_Reg_Addr_Write_Protect) :
    write_register_fuel (fuel + 2) h s w a val = some (write_register h s w a val) := by
  rw [write_register_other h s w a val ha]
  rw [write_register_fuel]
  simp only [ha, ne_eq, not_false_eq_true, if_true, if_false, write_register_fuel_protect,
    Option.map_some', Option.some_bind]
  by_cases c1 : (bl0940_uart_send h
      (write_register h s w BL0940_Reg_Addr_Write_Protect BL0940_Unlock_User_Reg).2.2
      (write_register h s w BL0940_Reg_Addr_Write_Protect
        BL0940_Unlock_User_Reg).2.1.uart_port_num (write_frame a val)).1 = true
  · simp only [c1, Bool.not_true, Bool.false_eq_true, if_false, Bool.true_eq_false]
    split_ifs <;> rfl
  · simp [c1]

theorem write_register_fuel_one_other (h : Host τ) (s : BL0940) (w : World τ)
    (a val : Nat) (ha : a ≠ BL0940_Reg_Addr_Write_Protect) :
    write_register_fuel 1 h s w a val = none := by
  rw [write_register_fuel]
  simp [ha, write_register_fuel]

theorem get_triple_bytes_rd (data : List Nat) :
    get_triple_bytes data = rd data 0 ||| (rd data 1 <<< 8) ||| (rd data 2 <<< 16) := by
  have h1 := rd_lt data 1
  have h2 := rd_lt data 2
  have m1 : (rd data 1 <<< 8) % 2 ^ 32 = rd data 1 <<< 8 := by
    rw [Nat.shiftLeft_eq]; apply Nat.mod_eq_of_lt; omega
  have m2 : (rd data 2 <<< 16) % 2 ^ 32 = rd data 2 <<< 16 := by
    rw [Nat.shiftLeft_eq]; apply Nat.mod_eq_of_lt; omega
  unfold get_triple_bytes
  rw [m1, m2]
  apply Nat.eq_of_testBit_eq
  intro i
  simp only [Nat.testBit_or]
  cases ((rd data 0).testBit i) <;> cases ((rd data 1 <<< 8).testBit i) <;>
    cases ((rd data 2 <<< 16).testBit i) <;> rfl

theorem and_ff_lt (x : Nat) : x &&& 0xFF < 256 := by
  rw [and_ff]; omega

theorem write_frame_eq (a v : Nat) :
    write_frame a v =
      [0xA8, a, v &&& 0xFF, (v >>> 8) &&& 0xFF, (v >>> 16) &&& 0xFF,
        0xFF - (0xA8 + a + (v &&& 0xFF) + ((v >>> 8) &&& 0xFF) + ((v >>> 16) &&& 0xFF))
          % 256] := by
  have b0 := and_ff_lt v
  have b1 := and_ff_lt (v >>> 8)
  have b2 := and_ff_lt (v >>> 16)
  unfold write_frame set_triple_bytes
  simp only [get_sum_byte_eq, bytes_sum_eq, BL0940_Head_Write, List.cons_append, List.nil_append, List.set_cons_succ,
    List.set_cons_zero, show 6 - 1 = 5 from rfl, List.range_succ, List.range_zero,
    List.map_cons, List.map_nil, List.sum_cons, List.sum_nil, rd_cons_zero, rd_cons_succ,
    Nat.mod_eq_of_lt b0, Nat.mod_eq_of_lt b1, Nat.mod_eq_of_lt b2]
  have e : ∀ x y z : Nat,
      255 - (168 % 256 + (a % 256 + (x + (y + (z + 0))))) % 65536 % 256
        = 255 - (168 + a + x + y + z) % 256 := by
    intro x y z; omega
  rw [e]

/-- C12. The data frame `write_register` hands to the transport for
address `a` and value `v` is the 6 bytes `[0xA8, a, v & 0xFF, (v >> 8) & 0xFF,
(v >> 16) & 0xFF, c]` with `c = 0xFF - ((0xA8 + a + the three value bytes) mod
256)`, so that the six bytes sum to `0xFF` modulo 256; it is the only frame of a
write to the write-protect register and the frame following the unlock frame
otherwise. -/
theorem write_register_data_frame (h : Host τ) (s : BL0940) (w : World τ) (a v : Nat) :
    write_frame a v =
      [0xA8, a, v &&& 0xFF, (v >>> 8) &&& 0xFF, (v >>> 16) &&& 0xFF,
        0xFF - (0xA8 + a + (v &&& 0xFF) + ((v >>> 8) &&& 0xFF) + ((v >>> 16) &&& 0xFF))
          % 256] ∧
    (write_frame a v).sum % 256 = 0xFF ∧
    (a = BL0940_Reg_Addr_Write_Protect →
      (write_register h s w a v).2.2.sent = w.sent ++ [write_frame a v]) ∧
    (a ≠ BL0940_Reg_Addr_Write_Protect →
      ∃ rest, (write_register h s w a v).2.2.sent = w.sent ++
        write_frame BL0940_Reg_Addr_Write_Protect BL0940_Unlock_User_Reg ::
          write_frame a v :: rest) := by
  refine ⟨write_frame_eq a v, ?_, ?_, ?_⟩
  · rw [write_frame_eq]
    simp only [List.sum_cons, List.sum_nil]
    omega
  · intro e
    subst e
    exact write_register_protect_sent h s w v
  · intro hne
    rcases write_register_other_cases h s w a v hne with c | c | c
    · exact ⟨[], by rw [c.2.2.2]⟩
    · exact ⟨[[BL0940_Head_Read, a]], by rw [c.2.2.2.2]⟩
    · exact ⟨[[BL0940_Head_Read, a], write_frame BL0940_Reg_Addr_Write_Protect 0x00],
        by rw [c.2.2.2]⟩

theorem write_register_data_frame_witness :
    write_frame 0x18 0x222 = [0xA8, 0x18, 0x22, 0x02, 0x00, 0x1B] ∧
    (write_frame 0x18 0x222).sum % 256 = 0xFF ∧
    (write_register (constHost true mode_echo_fixture) session0 ⟨(), []⟩
        BL0940_Reg_Addr_Write_Protect 0x55).2.2.sent
      = [] ++ [write_frame BL0940_Reg_Addr_Write_Protect 0x55] ∧
    (∃ rest, (write_register (constHost true mode_echo_fixture) session0 ⟨(), []⟩
        0x18 0x222).2.2.sent = [] ++
        write_frame BL0940_Reg_Addr_Write_Protect BL0940_Unlock_User_Reg ::
          write_frame 0x18 0x222 :: rest) :=
  ⟨by decide,
   (write_register_data_frame (constHost true mode_echo_fixture) session0 ⟨(), []⟩
      0x18 0x222).2.1,
   (write_register_data_frame (constHost true mode_echo_fixture) session0 ⟨(), []⟩
      BL0940_Reg_Addr_Write_Protect 0x55).2.2.1 rfl,
   (write_register_data_frame (constHost true mode_echo_fixture) session0 ⟨(), []⟩
      0x18 0x222).2.2.2 (by decide)⟩

/-- C13. `read_register a` hands exactly the command `[0x58, a]` to the
transport; a failed send records `Write` and returns 0; fewer than 4 bytes records
`Read_Len` and returns 0, whatever the checksum; 4 bytes with a checksum mismatch
over `[0x58, a, b0, b1, b2]` records `Read_Crc` and returns 0; otherwise the
result is `b0 | b1<<8 | b2<<16` and the session, error field included, is
unchanged; the result is always below `2^24`. -/
theorem read_register_contract (h : Host τ) (s : BL0940) (w : World τ) (a : Nat) :
    (read_register h s w a).2.2.sent = w.sent ++ [[0x58, a]] ∧
    reg_resp_crc a (reg_resp h s w a).1.data
      = 0xFF - (0x58 + a + rd (reg_resp h s w a).1.data 0 + rd (reg_resp h s w a).1.data 1
          + rd (reg_resp h s w a).1.data 2) % 256 ∧
    ((reg_cmd_send h s w a).1 = false →
      (read_register h s w a).1 = 0 ∧ (read_register h s w a).2.1.error = .Write) ∧
    ((reg_cmd_send h s w a).1 = true → (reg_resp h s w a).1.cnt % 256 < 4 →
      (read_register h s w a).1 = 0 ∧ (read_register h s w a).2.1.error = .Read_Len) ∧
    ((reg_cmd_send h s w a).1 = true → 4 ≤ (reg_resp h s w a).1.cnt % 256 →
      rd (reg_resp h s w a).1.data 3 ≠ reg_resp_crc a (reg_resp h s w a).1.data →
      (read_register h s w a).1 = 0 ∧ (read_register h s w a).2.1.error = .Read_Crc) ∧
    ((reg_cmd_send h s w a).1 = true → 4 ≤ (reg_resp h s w a).1.cnt % 256 →
      rd (reg_resp h s w a).1.data 3 = reg_resp_crc a (reg_resp h s w a).1.data →
      (read_register h s w a).1
        = rd (reg_resp h s w a).1.data 0 ||| (rd (reg_resp h s w a).1.data 1 <<< 8)
          ||| (rd (reg_resp h s w a).1.data 2 <<< 16) ∧
      (read_register h s w a).2.1 = s) ∧
    (read_register h s w a).1 < 2 ^ 24 := by
  refine ⟨read_register_sent h s w a, ?_, ?_, ?_, ?_, ?_, read_register_lt h s w a⟩
  · simp only [reg_resp_crc, spec_checksum, List.sum_cons, List.sum_nil]
    omega
  · intro c1
    rw [read_register_eq]
    simp [c1]
  · intro c1 c2
    rw [read_register_eq]
    simp [c1, c2]
  · intro c1 c2 c3
    have c2' : ¬ (reg_resp h s w a).1.cnt % 256 < 4 := by omega
    rw [read_register_eq]
    simp [c1, c2', c3]
  · intro c1 c2 c3
    have c2' : ¬ (reg_resp h s w a).1.cnt % 256 < 4 := by omega
    rw [read_register_eq]
    simp [c1, c2', c3, get_triple_bytes_rd]

theorem read_register_contract_witness :
    (read_register scriptHost session0 world_dual 0x0C).2.2.sent
      = world_dual.sent ++ [[0x58, 0x0C]] ∧
    ((read_register scriptHost session0 world_dual 0x0C).1
        = rd (reg_resp scriptHost session0 world_dual 0x0C).1.data 0
          ||| (rd (reg_resp scriptHost session0 world_dual 0x0C).1.data 1 <<< 8)
          ||| (rd (reg_resp scriptHost session0 world_dual 0x0C).1.data 2 <<< 16) ∧
      (read_register scriptHost session0 world_dual 0x0C).2.1 = session0) ∧
    ((read_register scriptHost session0 world_tampered 0x0C).1 = 0 ∧
      (read_register scriptHost session0 world_tampered 0x0C).2.1.error = .Read_Crc) ∧
    ((read_register scriptHost session0 ⟨([], [⟨3, [1, 0, 0]⟩]), []⟩ 0x0C).1 = 0 ∧
      (read_register scriptHost session0 ⟨([], [⟨3, [1, 0, 0]⟩]), []⟩ 0x0C).2.1.error
        = .Read_Len) ∧
    ((read_register scriptHost session0 ⟨([false], []), []⟩ 0x0C).1 = 0 ∧
      (read_register scriptHost session0 ⟨([false], []), []⟩ 0x0C).2.1.error = .Write) :=
  ⟨(read_register_contract scriptHost session0 world_dual 0x0C).1,
   (read_register_contract scriptHost session0 world_dual 0x0C).2.2.2.2.2.1
      (by decide) (by decide) (by decide),
   (read_register_contract scriptHost session0 world_tampered 0x0C).2.2.2.2.1
      (by decide) (by decide) (by decide),
   (read_register_contract scriptHost session0 ⟨([], [⟨3, [1, 0, 0]⟩]), []⟩ 0x0C).2.2.2.1
      (by decide) (by decide),
   (read_register_contract scriptHost session0 ⟨([false], []), []⟩ 0x0C).2.2.1
      (by decide)⟩

/-- C14. For a register other than the write-protect register,
`write_register` returns true if and only if the data-frame send succeeds and the
value returned by the read-back `read_register` equals `val`; the outcomes of the
unlock send and of the relock send do not enter the returned boolean. -/
theorem write_register_true_iff (h : Host τ) (s : BL0940) (w : World τ) (a val : Nat)
    (ha : a ≠ BL0940_Reg_Addr_Write_Protect) :
    (write_register h s w a val).1 = true ↔
      ((bl0940_uart_send h
          (write_register h s w BL0940_Reg_Addr_Write_Protect BL0940_Unlock_User_Reg).2.2
          (write_register h s w BL0940_Reg_Addr_Write_Protect
            BL0940_Unlock_User_Reg).2.1.uart_port_num
          (write_frame a val)).1 = true ∧
       (read_register h
          (write_register h s w BL0940_Reg_Addr_Write_Protect BL0940_Unlock_User_Reg).2.1
          (bl0940_uart_send h
            (write_register h s w BL0940_Reg_Addr_Write_Protect BL0940_Unlock_User_Reg).2.2
            (write_register h s w BL0940_Reg_Addr_Write_Protect
              BL0940_Unlock_User_Reg).2.1.uart_port_num
            (write_frame a val)).2 a).1 = val) := by
  rcases write_register_other_cases h s w a val ha with c | c | c
  · rw [c.1, c.2.1]; simp
  · rw [c.1, c.2.2.1]
    simp only [Bool.false_eq_true, true_and, false_iff]
    exact c.2.1
  · rw [c.1, c.2.1, c.2.2.1]; simp

theorem write_register_true_iff_witness :
    (write_register scriptHost session0 world_unlock_send_fails 0x18 1).1 = true ∧
    (write_register scriptHost session0 world_unlock_send_fails
      BL0940_Reg_Addr_Write_Protect BL0940_Unlock_User_Reg).1 = false ∧
    (write_register scriptHost session0 world_relock_send_fails 0x18 1).1 = true ∧
    (write_register scriptHost session0 world_relock_send_fails 0x18 1).2.1.error
      = .Write :=
  ⟨(write_register_true_iff scriptHost session0 world_unlock_send_fails 0x18 1
      (by decide)).mpr
      ⟨by simp only [write_register_protect]; decide,
       by simp only [write_register_protect]; decide⟩,
   by simp only [write_register_protect]; decide,
   (write_register_true_iff scriptHost session0 world_relock_send_fails 0x18 1
      (by decide)).mpr
      ⟨by simp only [write_register_protect]; decide,
       by simp only [write_register_protect]; decide⟩,
   by
    simp only [write_register_other _ _ _ _ _ (show (0x18 : Nat) ≠
      BL0940_Reg_Addr_Write_Protect by decide), write_register_protect]
    decide⟩

theorem write_frame_addr (a v b u : Nat) (e : write_frame a v = write_frame b u) : a = b := by
  rw [write_frame_eq, write_frame_eq] at e
  simp only [List.cons.injEq] at e
  exact e.2.1

/-- C17. A write to a register other than `0x1A` is bracketed: the first
frame handed to the transport is the unlock frame `A8 1A 55 00 00 E8`, handed over
before the data frame; when the call returns true the last frame handed over is
the lock frame `A8 1A 00 00 00 3D`; when it returns false (data send failed or
verification failed) no lock frame is handed over at all. -/
theorem write_register_bracket (h : Host τ) (s : BL0940) (w : World τ) (a val : Nat)
    (ha : a ≠ BL0940_Reg_Addr_Write_Protect) :
    write_frame BL0940_Reg_Addr_Write_Protect BL0940_Unlock_User_Reg
      = [0xA8, 0x1A, 0x55, 0x00, 0x00, 0xE8] ∧
    write_frame BL0940_Reg_Addr_Write_Protect 0x00 = [0xA8, 0x1A, 0x00, 0x00, 0x00, 0x3D] ∧
    (∃ rest, (write_register h s w a val).2.2.sent = w.sent ++
        write_frame BL0940_Reg_Addr_Write_Protect BL0940_Unlock_User_Reg ::
          write_frame a val :: rest) ∧
    ((write_register h s w a val).1 = true →
      (write_register h s w a val).2.2.sent.getLast?
        = some (write_frame BL0940_Reg_Addr_Write_Protect 0x00)) ∧
    ((write_register h s w a val).1 = false →
      ∃ new, (write_register h s w a val).2.2.sent = w.sent ++ new ∧
        write_frame BL0940_Reg_Addr_Write_Protect 0x00 ∉ new) := by
  have hUL : write_frame BL0940_Reg_Addr_Write_Protect 0x00
      ≠ write_frame BL0940_Reg_Addr_Write_Protect BL0940_Unlock_User_Reg := by decide
  have hDL : write_frame BL0940_Reg_Addr_Write_Protect 0x00 ≠ write_frame a val :=
    fun e => ha (write_frame_addr _ _ _ _ e).symm
  have hRL : write_frame BL0940_Reg_Addr_Write_Protect 0x00 ≠ [BL0940_Head_Read, a] := by
    rw [write_frame_eq]; simp
  refine ⟨by decide, by decide, ?_, ?_, ?_⟩
  · rcases write_register_other_cases h s w a val ha with c | c | c
    · exact ⟨[], by rw [c.2.2.2]⟩
    · exact ⟨[[BL0940_Head_Read, a]], by rw [c.2.2.2.2]⟩
    · exact ⟨[[BL0940_Head_Read, a], write_frame BL0940_Reg_Addr_Write_Protect 0x00],
        by rw [c.2.2.2]⟩
  · intro ht
    rcases write_register_other_cases h s w a val ha with c | c | c
    · rw [c.2.1] at ht; exact absurd ht (by decide)
    · rw [c.2.2.1] at ht; exact absurd ht (by decide)
    · rw [c.2.2.2]
      simp
  · intro hf
    rcases write_register_other_cases h s w a val ha with c | c | c
    · exact ⟨_, c.2.2.2, by simp [hUL, hDL]⟩
    · exact ⟨_, c.2.2.2.2, by simp [hUL, hDL, hRL]⟩
    · rw [c.2.2.1] at hf; exact absurd hf (by decide)

theorem write_register_bracket_witness :
    (write_register (constHost true mode_echo_fixture) session0 ⟨(), []⟩ 0x18 1).1 = true ∧
    (write_register (constHost true mode_echo_fixture) session0 ⟨(), []⟩ 0x18
      1).2.2.sent.getLast? = some (write_frame BL0940_Reg_Addr_Write_Protect 0x00) ∧
    (write_register (constHost true mode_echo_fixture) session0 ⟨(), []⟩ 0x18 2).1 = false ∧
    (∃ new, (write_register (constHost true mode_echo_fixture) session0 ⟨(), []⟩ 0x18
        2).2.2.sent = [] ++ new ∧
      write_frame BL0940_Reg_Addr_Write_Protect 0x00 ∉ new) ∧
    (∃ rest, (write_register (constHost true mode_echo_fixture) session0 ⟨(), []⟩ 0x18
        2).2.2.sent = [] ++
        write_frame BL0940_Reg_Addr_Write_Protect BL0940_Unlock_User_Reg ::
          write_frame 0x18 2 :: rest) :=
  have t1 : (write_register (constHost true mode_echo_fixture) session0 ⟨(), []⟩ 0x18
      1).1 = true := by
    rw [write_register_other_ok (constHost true mode_echo_fixture) session0 ⟨(), []⟩
      0x18 1 (by decide) (fun _ _ _ => rfl) (fun _ _ _ _ => mode_echo_fixture_ok)]
    decide
  have t2 : (write_register (constHost true mode_echo_fixture) session0 ⟨(), []⟩ 0x18
      2).1 = false := by
    rw [write_register_other_ok (constHost true mode_echo_fixture) session0 ⟨(), []⟩
      0x18 2 (by decide) (fun _ _ _ => rfl) (fun _ _ _ _ => mode_echo_fixture_ok)]
    decide
  ⟨t1,
   (write_register_bracket (constHost true mode_echo_fixture) session0 ⟨(), []⟩ 0x18 1
      (by decide)).2.2.2.1 t1,
   t2,
   (write_register_bracket (constHost true mode_echo_fixture) session0 ⟨(), []⟩ 0x18 2
      (by decide)).2.2.2.2 t2,
   (write_register_bracket (constHost true mode_echo_fixture) session0 ⟨(), []⟩ 0x18 2
      (by decide)).2.2.1⟩

/-- C20. `write_register` terminates on every input: two levels of calls
always suffice (the outer call and one nested call), one level suffices for the
write-protect address `0x1A`, to which every nested call is made; a top-level call
hands at most four frames to the transport, of which at most two (the unlock and
the lock frame) come from nested writes. -/
theorem write_register_terminates (h : Host τ) (s : BL0940) (w : World τ) (a val : Nat) :
    write_register_fuel 2 h s w a val = some (write_register h s w a val) ∧
    write_register_fuel 1 h s w BL0940_Reg_Addr_Write_Protect val
      = some (write_register h s w BL0940_Reg_Addr_Write_Protect val) ∧
    (write_register h s w a val).2.2.sent.length ≤ w.sent.length + 4 ∧
    (write_register h s w BL0940_Reg_Addr_Write_Protect val).2.2.sent
      = w.sent ++ [write_frame BL0940_Reg_Addr_Write_Protect val] ∧
    (a ≠ BL0940_Reg_Addr_Write_Protect →
      (write_register h s w a val).2.2.sent = w.sent ++
          [write_frame BL0940_Reg_Addr_Write_Protect BL0940_Unlock_User_Reg,
           write_frame a val] ∨
      (write_register h s w a val).2.2.sent = w.sent ++
          [write_frame BL0940_Reg_Addr_Write_Protect BL0940_Unlock_User_Reg,
           write_frame a val, [BL0940_Head_Read, a]] ∨
      (write_register h s w a val).2.2.sent = w.sent ++
          [write_frame BL0940_Reg_Addr_Write_Protect BL0940_Unlock_User_Reg,
           write_frame a val, [BL0940_Head_Read, a],
           write_frame BL0940_Reg_Addr_Write_Protect 0x00]) := by
  refine ⟨?_, write_register_fuel_protect 0 h s w val, ?_,
    write_register_protect_sent h s w val, ?_⟩
  · by_cases ha : a = BL0940_Reg_Addr_Write_Protect
    · subst ha; exact write_register_fuel_protect 1 h s w val
    · exact write_register_fuel_other 0 h s w a val ha
  · by_cases ha : a = BL0940_Reg_Addr_Write_Protect
    · subst ha
      rw [write_register_protect_sent]
      simp
    · rcases write_register_other_cases h s w a val ha with c | c | c
      · rw [c.2.2.2]; simp
      · rw [c.2.2.2.2]; simp
      · rw [c.2.2.2]; simp
  · intro ha
    rcases write_register_other_cases h s w a val ha with c | c | c
    · exact Or.inl c.2.2.2
    · exact Or.inr (Or.inl c.2.2.2.2)
    · exact Or.inr (Or.inr c.2.2.2)

theorem write_register_terminates_witness :
    write_register_fuel 2 (constHost true mode_echo_fixture) session0 ⟨(), []⟩ 0x18 1
      = some (write_register (constHost true mode_echo_fixture) session0 ⟨(), []⟩ 0x18 1) ∧
    (write_register (constHost true mode_echo_fixture) session0 ⟨(), []⟩ 0x18
      1).2.2.sent.length ≤ 0 + 4 ∧
    write_register_fuel 1 (constHost true mode_echo_fixture) session0 ⟨(), []⟩ 0x18 1
      = none :=
  ⟨(write_register_terminates (constHost true mode_echo_fixture) session0 ⟨(), []⟩ 0x18
      1).1,
   (write_register_terminates (constHost true mode_echo_fixture) session0 ⟨(), []⟩ 0x18
      1).2.2.1,
   write_register_fuel_one_other _ _ _ _ _ (by decide)⟩

/-- C11 (failing input). All sends succeed, the initial read of the mode
register delivers `0`, the value written is `0x222`, and the read-back response is
one byte short: `bl0940_apply_settings` fails with `Write_Reg`, not `Read_Len`. -/
theorem apply_settings_short_readback :
    (bl0940_apply_settings scriptHost session1 world_readback_short).1 = false ∧
    (bl0940_apply_settings scriptHost session1 world_readback_short).2.1.error
      = .Write_Reg ∧
    (bl0940_apply_settings scriptHost session1 world_readback_short).2.2.sent
      = [[0x58, 0x18], [0xA8, 0x1A, 0x55, 0x00, 0x00, 0xE8],
         [0xA8, 0x18, 0x22, 0x02, 0x00, 0x1B], [0x58, 0x18]] := by
  rw [apply_settings_eq]
  simp only [write_register_other _ _ _ _ _ (show BL0940_Reg_Addr_Mode_Settings ≠
    BL0940_Reg_Addr_Write_Protect by decide), write_register_protect]
  decide

/-! ## Inputs and decoded values -/

theorem apply_settings_session (h : Host τ) (s : BL0940) (w : World τ) :
    (bl0940_apply_settings h s w).2.1
      = { s with error := (bl0940_apply_settings h s w).2.1.error } := by
  rw [apply_settings_eq]
  split_ifs
  · rw [read_register_session]
  · rw [write_register_session, read_register_session]

/-- C15. `bl0940_apply_settings`, on success and on failure, changes
nothing of the session but the error field: port, calibration inputs, the three
settings and the seven snapshot fields are as before; `bl0940_get_readings`
leaves the port, the calibration inputs and the three settings as before. -/
theorem operations_keep_inputs (h : Host τ) (s : BL0940) (w : World τ) :
    (bl0940_apply_settings h s w).2.1
      = { s with error := (bl0940_apply_settings h s w).2.1.error } ∧
    ((bl0940_apply_settings h s w).2.1.uart_port_num = s.uart_port_num ∧
     (bl0940_apply_settings h s w).2.1.voltage_divider = s.voltage_divider ∧
     (bl0940_apply_settings h s w).2.1.r_shunt_ohm = s.r_shunt_ohm ∧
     (bl0940_apply_settings h s w).2.1.setting_filter = s.setting_filter ∧
     (bl0940_apply_settings h s w).2.1.setting_av_time = s.setting_av_time ∧
     (bl0940_apply_settings h s w).2.1.setting_ac_freq = s.setting_ac_freq ∧
     snapshot (bl0940_apply_settings h s w).2.1 = snapshot s) ∧
    ((bl0940_get_readings h s w).2.1.uart_port_num = s.uart_port_num ∧
     (bl0940_get_readings h s w).2.1.voltage_divider = s.voltage_divider ∧
     (bl0940_get_readings h s w).2.1.r_shunt_ohm = s.r_shunt_ohm ∧
     (bl0940_get_readings h s w).2.1.setting_filter = s.setting_filter ∧
     (bl0940_get_readings h s w).2.1.setting_av_time = s.setting_av_time ∧
     (bl0940_get_readings h s w).2.1.setting_ac_freq = s.setting_ac_freq) := by
  refine ⟨apply_settings_session h s w, ?_, ?_⟩
  · rw [apply_settings_session]
    exact ⟨rfl, rfl, rfl, rfl, rfl, rfl, rfl⟩
  · rw [get_readings_eq]
    split_ifs <;> exact ⟨rfl, rfl, rfl, rfl, rfl, rfl⟩

theorem rd_drop (data : List Nat) (k i : Nat) : rd (data.drop k) i = rd data (k + i) := by
  unfold rd
  rw [List.getD_eq_getElem?_getD, List.getD_eq_getElem?_getD, List.getElem?_drop]

theorem get_triple_bytes_drop (data : List Nat) (k : Nat) :
    get_triple_bytes (data.drop k) = LE24 data k := by
  rw [get_triple_bytes_rd, rd_drop, rd_drop, rd_drop]
  rfl

theorem get_readings_true_conds (h : Host τ) (s : BL0940) (w : World τ)
    (hok : (bl0940_get_readings h s w).1 = true) :
    (bulk_cmd_send h s w).1 = true ∧ ¬ (bulk_resp h s w).1.cnt % 256 < 35 ∧
    rd (bulk_resp h s w).1.data 34 = bulk_crc (bulk_resp h s w).1.data ∧
    (angle_cmd_send h s w).1 = true ∧ ¬ (angle_resp h s w).1.cnt % 256 < 4 ∧
    rd (angle_resp h s w).1.data 3 =
      reg_resp_crc BL0940_Reg_Addr_Angle (angle_resp h s w).1.data := by
  rw [get_readings_result] at hok
  split_ifs at hok
  simp_all

/-- C16. On a fully successful `bl0940_get_readings` with bulk response
`rx` and angle register value `g`, in exact rational arithmetic with
`Vref = 1.218`: voltage `= LE24(10) * (Vref/79931/1000) * voltage_divider`,
current `= LE24(4) * (Vref/324004/1000) / r_shunt_ohm`, power
`= LE24(16) * (Vref^2/4046/10^6) * voltage_divider / r_shunt_ohm`, energy
`= LE24(22) * (Vref^2/4046/10^6 * 1638.4 * 256/3600000) * voltage_divider /
r_shunt_ohm`, temperature `= (170/448) * (LE24(28)/2 - 32) - 45`, and phase angle
`= 360 * (g & 0xFFFF) * f / 1000000` with `f = 50` at 50 Hz and `60` otherwise. -/
theorem get_readings_values (h : Host τ) (s : BL0940) (w : World τ)
    (hok : (bl0940_get_readings h s w).1 = true) :
    (read_register h (bulk_decoded s (bulk_resp h s w).1.data) (bulk_resp h s w).2
        BL0940_Reg_Addr_Angle).1 = get_triple_bytes (angle_resp h s w).1.data ∧
    (bl0940_get_readings h s w).2.1.voltage
      = (LE24 (bulk_resp h s w).1.data 10 : ℚ) * ((1218 / 1000) / 79931 / 1000)
        * s.voltage_divider ∧
    (bl0940_get_readings h s w).2.1.current
      = (LE24 (bulk_resp h s w).1.data 4 : ℚ) * ((1218 / 1000) / 324004 / 1000)
        / s.r_shunt_ohm ∧
    (bl0940_get_readings h s w).2.1.power
      = (LE24 (bulk_resp h s w).1.data 16 : ℚ) * ((1218 / 1000) ^ 2 / 4046 / 10 ^ 6)
        * s.voltage_divider / s.r_shunt_ohm ∧
    (bl0940_get_readings h s w).2.1.energy
      = (LE24 (bulk_resp h s w).1.data 22 : ℚ)
        * ((1218 / 1000) ^ 2 / 4046 / 10 ^ 6 * (16384 / 10) * 256 / 3600000)
        * s.voltage_divider / s.r_shunt_ohm ∧
    (bl0940_get_readings h s w).2.1.temp_internal
      = (170 / 448) * ((LE24 (bulk_resp h s w).1.data 28 : ℚ) / 2 - 32) - 45 ∧
    (bl0940_get_readings h s w).2.1.phase_angle
      = 360 * ((get_triple_bytes (angle_resp h s w).1.data &&& 0xFFFF : Nat) : ℚ)
        * (if s.setting_ac_freq = BL0940_AC_Freq_50Hz then 50 else 60) / 1000000 := by
  obtain ⟨c1, c2, c3, c4, c5, c6⟩ := get_readings_true_conds h s w hok
  rw [get_readings_eq]
  simp only [c1, c2, c3, c4, c5, c6, Bool.true_eq_false, if_false, ne_eq, not_true_eq_false]
  refine ⟨?_, ?_, ?_, ?_, ?_, ?_, ?_⟩
  · rw [read_register_eq]
    have e1 : reg_cmd_send h (bulk_decoded s (bulk_resp h s w).1.data) (bulk_resp h s w).2
        BL0940_Reg_Addr_Angle = angle_cmd_send h s w := rfl
    have e2 : reg_resp h (bulk_decoded s (bulk_resp h s w).1.data) (bulk_resp h s w).2
        BL0940_Reg_Addr_Angle = angle_resp h s w := rfl
    rw [e1, e2]
    simp only [c4, c5, c6, Bool.true_eq_false, if_false, ne_eq, not_true_eq_false]
  · simp only [bulk_decoded, BL0940_Readings_Pos_V, get_triple_bytes_drop,
      BL0940_Coefficient_V, BL0940_Vref]
  · simp only [bulk_decoded, BL0940_Readings_Pos_I, get_triple_bytes_drop,
      BL0940_Coefficient_I, BL0940_Vref]
  · simp only [bulk_decoded, BL0940_Readings_Pos_W, get_triple_bytes_drop,
      BL0940_Coefficient_W, BL0940_Vref]
    ring
  · simp only [bulk_decoded, BL0940_Readings_Pos_Pulses, get_triple_bytes_drop,
      BL0940_Coefficient_kWh, BL0940_Coefficient_W, BL0940_Vref]
    ring
  · simp only [bulk_decoded, BL0940_Readings_Pos_Temp_Internal, get_triple_bytes_drop]
  · simp only [angle_fraction, BL0940_Freq_Sample]
    ring

theorem get_readings_values_witness :
    (bl0940_get_readings scriptHost session0 world_good).1 = true ∧
    LE24 (bulk_resp scriptHost session0 world_good).1.data 10 = 0x013880 ∧
    (bl0940_get_readings scriptHost session0 world_good).2.1.voltage
      = (LE24 (bulk_resp scriptHost session0 world_good).1.data 10 : ℚ)
        * ((1218 / 1000) / 79931 / 1000) * session0.voltage_divider ∧
    (bl0940_get_readings scriptHost session0 world_good).2.1.phase_angle
      = 360 * ((get_triple_bytes (angle_resp scriptHost session0 world_good).1.data
          &&& 0xFFFF : Nat) : ℚ)
        * (if session0.setting_ac_freq = BL0940_AC_Freq_50Hz then 50 else 60) / 1000000 :=
  ⟨by decide, by decide,
   (get_readings_values scriptHost session0 world_good (by decide)).2.1,
   (get_readings_values scriptHost session0 world_good (by decide)).2.2.2.2.2.2⟩

/-! ## Corruption of a single byte -/

theorem sum_range_congr (f g : Nat → Nat) (n : Nat) (hfg : ∀ k, k < n → g k = f k) :
    ((List.range n).map g).sum = ((List.range n).map f).sum := by
  induction n with
  | zero => rfl
  | succ n ih =>
    rw [List.sum_range_succ, List.sum_range_succ, ih (fun k hk => hfg k (by omega)),
      hfg n (by omega)]

theorem sum_range_update (f g : Nat → Nat) (n i : Nat) (hi : i < n)
    (hfg : ∀ k, k < n → k ≠ i → g k = f k) :
    ((List.range n).map g).sum + f i = ((List.range n).map f).sum + g i := by
  induction n with
  | zero => omega
  | succ n ih =>
    rw [List.sum_range_succ, List.sum_range_succ]
    by_cases c : i = n
    · subst c
      rw [sum_range_congr f g i (fun k hk => hfg k (by omega) (by omega))]
      omega
    · have := ih (by omega) (fun k hk hne => hfg k (by omega) hne)
      rw [hfg n (by omega) (fun e => c e.symm)]
      omega

/-- C18. A response that differs from an accepted one in exactly one
byte is rejected with `Read_Crc`, each part under its own conditions only.
Register read: if `read_register` accepts the 4-byte response at `w`, and the
response at `w'` (send succeeding, full length) agrees with it on the four bytes
except at one position `i < 4`, where it differs, then `read_register` at `w'`
records `Read_Crc` and returns 0.  Bulk read: if the 35-byte response at `w`
carries the checksum `bl0940_get_readings` accepts, and the response at `w'`
(send succeeding, full length) agrees with it on the 35 bytes except at one
position `j < 35`, where it differs, then `bl0940_get_readings` at `w'` returns
false with `Read_Crc`. -/
theorem single_byte_corruption_detected (h : Host τ) (s : BL0940) (w w' : World τ)
    (a i j : Nat) :
    ((reg_cmd_send h s w a).1 = true → 4 ≤ (reg_resp h s w a).1.cnt % 256 →
      rd (reg_resp h s w a).1.data 3 = reg_resp_crc a (reg_resp h s w a).1.data →
      (reg_cmd_send h s w' a).1 = true → 4 ≤ (reg_resp h s w' a).1.cnt % 256 →
      i < 4 →
      (∀ k, k < 4 → k ≠ i →
        rd (reg_resp h s w' a).1.data k = rd (reg_resp h s w a).1.data k) →
      rd (reg_resp h s w' a).1.data i ≠ rd (reg_resp h s w a).1.data i →
      (read_register h s w a).2.1 = s ∧
      (read_register h s w' a).1 = 0 ∧
      (read_register h s w' a).2.1.error = .Read_Crc) ∧
    (rd (bulk_resp h s w).1.data 34 = bulk_crc (bulk_resp h s w).1.data →
      (bulk_cmd_send h s w').1 = true → 35 ≤ (bulk_resp h s w').1.cnt % 256 →
      j < 35 →
      (∀ k, k < 35 → k ≠ j →
        rd (bulk_resp h s w').1.data k = rd (bulk_resp h s w).1.data k) →
      rd (bulk_resp h s w').1.data j ≠ rd (bulk_resp h s w).1.data j →
      (bl0940_get_readings h s w').1 = false ∧
      (bl0940_get_readings h s w').2.1.error = .Read_Crc) := by
  constructor
  · intro hs hl hc hs' hl' hi hsame hdiff
    have hl2 : ¬ (reg_resp h s w a).1.cnt % 256 < 4 := by omega
    have hl2' : ¬ (reg_resp h s w' a).1.cnt % 256 < 4 := by omega
    have hne : rd (reg_resp h s w' a).1.data 3 ≠ reg_resp_crc a (reg_resp h s w' a).1.data := by
      have b0 := rd_lt (reg_resp h s w a).1.data 0
      have b1 := rd_lt (reg_resp h s w a).1.data 1
      have b2 := rd_lt (reg_resp h s w a).1.data 2
      have b3 := rd_lt (reg_resp h s w a).1.data 3
      have b0' := rd_lt (reg_resp h s w' a).1.data 0
      have b1' := rd_lt (reg_resp h s w' a).1.data 1
      have b2' := rd_lt (reg_resp h s w' a).1.data 2
      have b3' := rd_lt (reg_resp h s w' a).1.data 3
      have e0 := hsame 0 (by omega)
      have e1 := hsame 1 (by omega)
      have e2 := hsame 2 (by omega)
      have e3 := hsame 3 (by omega)
      simp only [reg_resp_crc, spec_checksum, List.sum_cons, List.sum_nil] at hc ⊢
      have : i = 0 ∨ i = 1 ∨ i = 2 ∨ i = 3 := by omega
      rcases this with rfl | rfl | rfl | rfl
      · have e1 := e1 (by omega); have e2 := e2 (by omega); have e3 := e3 (by omega)
        omega
      · have e0 := e0 (by omega); have e2 := e2 (by omega); have e3 := e3 (by omega)
        omega
      · have e0 := e0 (by omega); have e1 := e1 (by omega); have e3 := e3 (by omega)
        omega
      · have e0 := e0 (by omega); have e1 := e1 (by omega); have e2 := e2 (by omega)
        omega
    refine ⟨?_, ?_, ?_⟩
    · rw [read_register_eq]; simp [hs, hl2, hc]
    · rw [read_register_eq]; simp [hs', hl2', hne]
    · rw [read_register_eq]; simp [hs', hl2', hne]
  · intro hbc hbs' hbl' hj hbsame hbdiff
    have hl2' : ¬ (bulk_resp h s w').1.cnt % 256 < 35 := by omega
    have hne : rd (bulk_resp h s w').1.data 34 ≠ bulk_crc (bulk_resp h s w').1.data := by
      have b := rd_lt (bulk_resp h s w).1.data j
      have b' := rd_lt (bulk_resp h s w').1.data j
      have c := rd_lt (bulk_resp h s w).1.data 34
      have c' := rd_lt (bulk_resp h s w').1.data 34
      simp only [bulk_crc, spec_checksum, List.sum_cons] at hbc ⊢
      by_cases cj : j = 34
      · subst cj
        rw [sum_range_congr (rd (bulk_resp h s w).1.data) (rd (bulk_resp h s w').1.data) 34
          (fun k hk => hbsame k (by omega) (by omega))]
        omega
      · have hu := sum_range_update (rd (bulk_resp h s w).1.data)
          (rd (bulk_resp h s w').1.data) 34 j (by omega)
          (fun k hk hne => hbsame k (by omega) hne)
        have e34 := hbsame 34 (by omega) (fun e => cj e.symm)
        omega
    rw [get_readings_result, get_readings_error]
    simp [hbs', hl2', hne]

theorem single_byte_corruption_detected_witness :
    ((read_register scriptHost session0 world_reg_good 0x0C).2.1 = session0 ∧
      (read_register scriptHost session0 world_reg_byte1 0x0C).1 = 0 ∧
      (read_register scriptHost session0 world_reg_byte1 0x0C).2.1.error = .Read_Crc) ∧
    ((bl0940_get_readings scriptHost session0 world_good).1 = true ∧
      (bl0940_get_readings scriptHost session0 world_bulk_byte20).1 = false ∧
      (bl0940_get_readings scriptHost session0 world_bulk_byte20).2.1.error = .Read_Crc) ∧
    ((read_register scriptHost session0 world_dual 0x0C).2.1 = session0 ∧
      (read_register scriptHost session0 world_dual_byte1 0x0C).1 = 0 ∧
      (read_register scriptHost session0 world_dual_byte1 0x0C).2.1.error = .Read_Crc) ∧
    ((bl0940_get_readings scriptHost session0 world_dual_byte1).1 = false ∧
      (bl0940_get_readings scriptHost session0 world_dual_byte1).2.1.error = .Read_Crc) :=
  ⟨(single_byte_corruption_detected scriptHost session0 world_reg_good world_reg_byte1
      0x0C 1 0).1 (by decide) (by decide) (by decide) (by decide) (by decide) (by decide)
      (by decide) (by decide),
   ⟨by decide,
    (single_byte_corruption_detected scriptHost session0 world_good world_bulk_byte20
      0x0C 0 20).2 (by decide) (by decide) (by decide) (by decide) (by decide)
      (by decide)⟩,
   (single_byte_corruption_detected scriptHost session0 world_dual world_dual_byte1
      0x0C 1 1).1 (by decide) (by decide) (by decide) (by decide) (by decide) (by decide)
      (by decide) (by decide),
   (single_byte_corruption_detected scriptHost session0 world_dual world_dual_byte1
      0x0C 1 1).2 (by decide) (by decide) (by decide) (by decide) (by decide)
      (by decide)⟩

/-! ## The value written by `bl0940_apply_settings` -/

theorem apply_settings_reg_mode_lt (s : BL0940) (m : Nat) (hm : m < 2 ^ 24) :
    apply_settings_reg_mode s m < 2 ^ 24 := by
  apply Nat.lt_pow_two_of_testBit
  intro i hi
  rw [apply_settings_reg_mode_testBit]
  have n9 : ¬ i = 9 := by omega
  have n8 : ¬ i = 8 := by omega
  have n45 : ¬ (i = 4 ∨ i = 5) := by omega
  have n01 : ¬ (i = 0 ∨ i = 1) := by omega
  simp only [n9, n8, n45, n01, if_false]
  split
  · exact testBit_ge_of_lt hm hi
  · rfl

/-- C19. For every session configuration (whatever the integers in
the three setting fields) and every successful initial read, the value
`bl0940_apply_settings` passes to `write_register` is below `2^24`: the three
payload bytes of the write frame decode back to it, so a faithful echo of the
payload compares equal in the read-back verification. -/
theorem apply_settings_value_fits (h : Host τ) (s : BL0940) (w : World τ)
    (hread : (read_register h { s with error := .None } w
      BL0940_Reg_Addr_Mode_Settings).2.1.error = .None) :
    bl0940_apply_settings h s w =
      write_register h
        (read_register h { s with error := .None } w BL0940_Reg_Addr_Mode_Settings).2.1
        (read_register h { s with error := .None } w BL0940_Reg_Addr_Mode_Settings).2.2
        BL0940_Reg_Addr_Mode_Settings
        (apply_settings_reg_mode s
          (read_register h { s with error := .None } w BL0940_Reg_Addr_Mode_Settings).1) ∧
    apply_settings_reg_mode s
        (read_register h { s with error := .None } w BL0940_Reg_Addr_Mode_Settings).1
      < 2 ^ 24 ∧
    get_triple_bytes (set_triple_bytes (apply_settings_reg_mode s
        (read_register h { s with error := .None } w BL0940_Reg_Addr_Mode_Settings).1))
      = apply_settings_reg_mode s
          (read_register h { s with error := .None } w BL0940_Reg_Addr_Mode_Settings).1 ∧
    get_triple_bytes ((write_frame BL0940_Reg_Addr_Mode_Settings
        (apply_settings_reg_mode s
          (read_register h { s with error := .None } w
            BL0940_Reg_Addr_Mode_Settings).1)).drop 2)
      = apply_settings_reg_mode s
          (read_register h { s with error := .None } w BL0940_Reg_Addr_Mode_Settings).1 := by
  have hlt := apply_settings_reg_mode_lt s _ (read_register_lt h { s with error := .None } w
    BL0940_Reg_Addr_Mode_Settings)
  refine ⟨?_, hlt, get_set_triple_bytes _ hlt, ?_⟩
  · rw [apply_settings_eq]
    simp [hread]
  · have e : ∀ a v, get_triple_bytes ((write_frame a v).drop 2)
        = get_triple_bytes (set_triple_bytes v) := by
      intro a v
      rw [write_frame_eq]
      simp only [List.drop_succ_cons, List.drop_zero, get_triple_bytes, set_triple_bytes,
        rd_cons_zero, rd_cons_succ]
      have b0 := and_ff_lt v
      have b1 := and_ff_lt (v >>> 8)
      have b2 := and_ff_lt (v >>> 16)
      simp only [Nat.mod_eq_of_lt b0, Nat.mod_eq_of_lt b1, Nat.mod_eq_of_lt b2]
    rw [e]
    exact get_set_triple_bytes _ hlt

theorem apply_settings_value_fits_witness :
    apply_settings_reg_mode session_out_of_enum 0xFFFFFF = 0xFFFDFF ∧
    apply_settings_reg_mode session1
        (read_register (constHost true mode_ones_fixture) { session1 with error := .None }
          ⟨(), []⟩ BL0940_Reg_Addr_Mode_Settings).1 < 2 ^ 24 ∧
    get_triple_bytes ((write_frame BL0940_Reg_Addr_Mode_Settings
        (apply_settings_reg_mode session1
          (read_register (constHost true mode_ones_fixture) { session1 with error := .None }
            ⟨(), []⟩ BL0940_Reg_Addr_Mode_Settings).1)).drop 2)
      = apply_settings_reg_mode session1
          (read_register (constHost true mode_ones_fixture) { session1 with error := .None }
            ⟨(), []⟩ BL0940_Reg_Addr_Mode_Settings).1 :=
  ⟨by decide,
   (apply_settings_value_fits (constHost true mode_ones_fixture) session1 ⟨(), []⟩
      (by decide)).2.1,
   (apply_settings_value_fits (constHost true mode_ones_fixture) session1 ⟨(), []⟩
      (by decide)).2.2.2⟩

end Bl0940
